import Mathlib

set_option maxRecDepth 100000

/-!
Shallow embedding of the goesbox LRIT packet-reassembly core
(`src/lrit.rs`, plus the DCS handler slice from `goeslib/src/handlers/dcs.rs`)
and proofs about it.

Modelling conventions:
* Bytes are `Nat` values (frames arriving from the transport hold values below
  256; the definitions never rely on that bound unless stated).
* Rust functions that can `panic!` (failed `assert!`, out-of-bounds slicing or
  indexing, `unwrap`/`expect` on `None`, arithmetic underflow of `usize`) are
  modelled in `Except String`, where `.error` is a panic.  A panic aborts the
  whole pipeline (the binary installs only a logging panic hook, so unwinding
  terminates the process).
* `Vec<u8>` becomes `List Nat`; `truncate (len - 2)` becomes `List.take`;
  `split_off n` becomes `List.drop` guarded by the `n ≤ len` panic condition.
* `HashMap<u16, Session>` becomes an association list with unique keys
  maintained by the operations themselves; lookup takes the first match.
* The external rice decompressor (`acres::sz::Sz`) is out of scope of the
  repository; it is abstracted as a `RiceCtx` record of its two operations,
  threaded through the functions that construct or use it.  `DecompInfo.Needed`
  stores the four constructor arguments of `Sz::new`.
-/

/-- Big-endian 16-bit read at byte offset `i` (callers guard the length). -/
def beU16 (d : List Nat) (i : Nat) : Nat :=
  ((d.getD i 0) <<< 8) ||| d.getD (i + 1) 0

/-- Big-endian 32-bit read at byte offset `i`. -/
def beU32 (d : List Nat) (i : Nat) : Nat :=
  ((d.getD i 0) <<< 24) ||| ((d.getD (i + 1) 0) <<< 16) |||
    ((d.getD (i + 2) 0) <<< 8) ||| d.getD (i + 3) 0

/-- Big-endian 64-bit read at byte offset `i`. -/
def beU64 (d : List Nat) (i : Nat) : Nat :=
  (beU32 d i) <<< 32 ||| beU32 d (i + 4)

/-- One shift-and-conditionally-xor step of the CRC-16/CCITT-FALSE bit loop. -/
def crc16_round (c : Nat) : Nat :=
  if c &&& 0x8000 ≠ 0 then ((c <<< 1) ^^^ 0x1021) &&& 0xFFFF
  else (c <<< 1) &&& 0xFFFF

/-- Fold one input byte into the CRC-16/CCITT-FALSE state (8 bit rounds). -/
def crc16_byte (c b : Nat) : Nat :=
  (List.range 8).foldl (fun s _ => crc16_round s) (c ^^^ ((b &&& 0xFF) <<< 8))

/-- Model of `crc::calc_crc16`: CRC-16/CCITT-FALSE, polynomial 0x1021,
initial value 0xFFFF, no reflection, no final xor. -/
def calc_crc16 (data : List Nat) : Nat :=
  data.foldl crc16_byte 0xFFFF

/-- Test vector from the repository tests: CRC-16 of the ASCII bytes of
the string 123456789 is 0x29B1. -/
theorem calc_crc16_reference_vector :
    calc_crc16 [49, 50, 51, 52, 53, 54, 55, 56, 57] = 0x29B1 := by decide

/-- Model of `diff_with_wrap` from `src/lrit.rs`. -/
def diff_with_wrap (low high max : Nat) : Nat :=
  if low ≤ high then high - low else max - low + high

/-- Model of the `TP_PDU` struct: a 6-byte header buffer being filled, the
data buffer being filled, and the virtual channel id. -/
structure TP_PDU where
  header : List Nat
  data : List Nat
  vcid : Nat
deriving DecidableEq, Repr

namespace TP_PDU

/-- Model of `TP_PDU::new`. -/
def new (vcid : Nat) : TP_PDU := ⟨[], [], vcid⟩

/-- Model of `TP_PDU::header_complete`, including its `assert!(len <= 6)`. -/
def header_complete (p : TP_PDU) : Except String Bool :=
  if p.header.length ≤ 6 then .ok (p.header.length == 6)
  else .error "assert header length at most six"

/-- Model of `TP_PDU::packet_length`: the 16-bit length-minus-one field plus
one, guarded by the `assert!(len <= 8192)` panic. -/
def packet_length (p : TP_PDU) : Except String (Option Nat) := do
  let hc ← p.header_complete
  if hc then
    let len := beU16 p.header 4 + 1
    if len ≤ 8192 then .ok (some len) else .error "assert len is too long"
  else .ok none

/-- Model of `TP_PDU::data_complete`, including its
`assert!(data.len() <= len)`. -/
def data_complete (p : TP_PDU) : Except String Bool := do
  match ← p.packet_length with
  | some len =>
      if p.data.length ≤ len then .ok (p.data.length == len)
      else .error "assert data length at most packet length"
  | none => .ok false

/-- Model of `TP_PDU::is_crc_ok`.  The `len < 2` guard models the panic of the
slice `data[..len - 2]` on usize underflow; an incomplete unit reports false
(the source only warns). -/
def is_crc_ok (p : TP_PDU) : Except String Bool := do
  let dc ← p.data_complete
  if dc then
    let len := p.data.length
    if len < 2 then .error "slice underflow in crc check"
    else
      let computed := calc_crc16 (p.data.take (len - 2))
      let received := ((p.data.getD (len - 2) 0) <<< 8) ||| p.data.getD (len - 1) 0
      .ok (computed == received)
  else .ok false

/-- Model of `TP_PDU::version`, including its `assert_eq!(ver, 0)`. -/
def version (p : TP_PDU) : Except String (Option Nat) :=
  if p.header.length > 0 then
    let ver := (p.header.getD 0 0 >>> 5) &&& 0x7
    if ver = 0 then .ok (some ver) else .error "assert version zero"
  else .ok none

/-- Model of `TP_PDU::APID`. -/
def APID (p : TP_PDU) : Option Nat :=
  if p.header.length ≥ 2 then
    some (((p.header.getD 0 0 &&& 0b111) <<< 8) ||| p.header.getD 1 0)
  else none

/-- Model of `TP_PDU::flags` (the 2-bit sequence flag). -/
def flags (p : TP_PDU) : Option Nat :=
  if p.header.length ≥ 4 then some ((p.header.getD 2 0 &&& 0xc0) >>> 6)
  else none

/-- Model of `TP_PDU::sequence_count` (the 14-bit per-APID counter). -/
def sequence_count (p : TP_PDU) : Option Nat :=
  if p.header.length ≥ 4 then
    some (((p.header.getD 2 0 &&& 0x3f) <<< 8) ||| p.header.getD 3 0)
  else none

/-- Model of `TP_PDU::process_bytes`: fill the header up to 6 bytes, then fill
the data up to the declared packet length, returning the consumed count.
The `a = 0` and `needed_bytes = 0` guards are the two source assertions
(`assert!(a > 0)` and `assert!(needed_bytes > 0)`); the `Nat` subtraction
`packet_len - data.length` truncates exactly when the Rust usize subtraction
would underflow (a panic), and in that case `needed_bytes = 0` errors too. -/
def process_bytes (p : TP_PDU) (bytes : List Nat) : Except String (TP_PDU × Nat) := do
  let hc ← p.header_complete
  let (p, bytes_used) ←
    if !hc then
      let needed_bytes := 6 - p.header.length
      let a := min needed_bytes bytes.length
      if a = 0 then Except.error "assert a positive"
      else if 6 < a then Except.error "assert a at most six"
      else Except.ok ({ p with header := p.header ++ bytes.take a }, a)
    else Except.ok (p, 0)
  match ← p.packet_length with
  | some packet_len =>
      let needed_bytes := packet_len - p.data.length
      if needed_bytes = 0 then .error "assert needed positive"
      else
        let a := min needed_bytes (bytes.length - bytes_used)
        .ok ({ p with data := p.data ++ (bytes.drop bytes_used).take a }, bytes_used + a)
  | none => .ok (p, bytes_used)

end TP_PDU

/-- Model of `PrimaryHeader` (type 0, 16 bytes). -/
structure PrimaryHeader where
  header_type : Nat
  header_record_lenth : Nat
  filetype_code : Nat
  total_header_length : Nat
  data_field_bits : Nat
deriving DecidableEq, Repr

/-- Model of `PrimaryHeader::from_bytes`. -/
def PrimaryHeader.from_bytes (data : List Nat) : Option PrimaryHeader :=
  if data.length < 16 then none
  else some
    { header_type := data.getD 0 0
      header_record_lenth := beU16 data 1
      filetype_code := data.getD 3 0
      total_header_length := beU32 data 4
      data_field_bits := beU64 data 8 }

/-- Model of `ImageStructureRecord` (type 1). -/
structure ImageStructureRecord where
  header_type : Nat
  header_record_lenth : Nat
  bits_per_pixel : Nat
  num_columns : Nat
  num_lines : Nat
  compression : Nat
deriving DecidableEq, Repr

/-- Model of `ImageStructureRecord::from_bytes` (requires 16 bytes as in the
source, although the record itself is 9 bytes). -/
def ImageStructureRecord.from_bytes (data : List Nat) : Option ImageStructureRecord :=
  if data.length < 16 then none
  else some
    { header_type := data.getD 0 0
      header_record_lenth := beU16 data 1
      bits_per_pixel := data.getD 3 0
      num_columns := beU16 data 4
      num_lines := beU16 data 6
      compression := data.getD 8 0 }

/-- Model of `ImageNavigationRecord` (type 2).  The 32-byte projection name is
kept as raw bytes and the four scaling fields as their raw big-endian 32-bit
values; the source decodes them to `String`/`i32` but no modelled behavior
reads them. -/
structure ImageNavigationRecord where
  header_type : Nat
  header_record_lenth : Nat
  projection_name : List Nat
  column_scaling_factor : Nat
  line_scaling_factor : Nat
  column_offset : Nat
  line_offset : Nat
deriving DecidableEq, Repr

/-- Model of `ImageNavigationRecord::from_bytes`. -/
def ImageNavigationRecord.from_bytes (data : List Nat) : Option ImageNavigationRecord :=
  if data.length < 51 then none
  else some
    { header_type := data.getD 0 0
      header_record_lenth := beU16 data 1
      projection_name := (data.drop 3).take 32
      column_scaling_factor := beU32 data 35
      line_scaling_factor := beU32 data 39
      column_offset := beU32 data 43
      line_offset := beU32 data 47 }

/-- Model of `ImageDataFunctionRecord` (type 3).  The source performs no
length guard: with fewer than 3 input bytes the `unwrap` on the cursor reads
panics, and a declared record length below 3 underflows `len - 3`; both are
panics that its only caller (`read_headers`) would also reach through its own
`unwrap` on `None`, so both are coalesced into `none` here. -/
structure ImageDataFunctionRecord where
  header_type : Nat
  header_record_lenth : Nat
  data : List Nat
deriving DecidableEq, Repr

/-- Model of `ImageDataFunctionRecord::from_bytes` (see the record comment for
the panic/None coalescing). -/
def ImageDataFunctionRecord.from_bytes (data : List Nat) : Option ImageDataFunctionRecord :=
  if data.length < 3 then none
  else
    let len := beU16 data 1
    if len < 3 then none
    else some
      { header_type := data.getD 0 0
        header_record_lenth := len
        data := (data.drop 3).take (len - 3) }

/-- Model of `AnnotationRecord` (type 4).  The text is kept as raw bytes (the
source lossily decodes and trims it; no modelled behavior reads it). -/
structure AnnotationRecord where
  header_type : Nat
  header_record_lenth : Nat
  text : List Nat
deriving DecidableEq, Repr

/-- Model of `AnnotationRecord::from_bytes` (panic/None coalescing as for the
type 3 record). -/
def AnnotationRecord.from_bytes (data : List Nat) : Option AnnotationRecord :=
  if data.length < 3 then none
  else
    let len := beU16 data 1
    if len < 3 then none
    else some
      { header_type := data.getD 0 0
        header_record_lenth := len
        text := (data.drop 3).take (len - 3) }

/-- Model of `TimeStampRecord` (type 5). -/
structure TimeStampRecord where
  header_type : Nat
  header_record_lenth : Nat
  time : List Nat
deriving DecidableEq, Repr

/-- Model of `TimeStampRecord::from_bytes`. -/
def TimeStampRecord.from_bytes (data : List Nat) : Option TimeStampRecord :=
  if data.length < 14 then none
  else some
    { header_type := data.getD 0 0
      header_record_lenth := beU16 data 1
      time := (data.drop 3).take 7 }

/-- Model of `AncillaryTextRecord` (type 6). -/
structure AncillaryTextRecord where
  header_type : Nat
  header_record_lenth : Nat
  text : List Nat
deriving DecidableEq, Repr

/-- Model of `AncillaryTextRecord::from_bytes` (panic/None coalescing as for
the type 3 record). -/
def AncillaryTextRecord.from_bytes (data : List Nat) : Option AncillaryTextRecord :=
  if data.length < 3 then none
  else
    let len := beU16 data 1
    if len < 3 then none
    else some
      { header_type := data.getD 0 0
        header_record_lenth := len
        text := (data.drop 3).take (len - 3) }

/-- Model of `ImageSegmentIdentificationRecord` (type 128). -/
structure ImageSegmentIdentificationRecord where
  header_type : Nat
  header_record_lenth : Nat
  image_id : Nat
  segment_seq : Nat
  start_col : Nat
  start_line : Nat
  max_segment : Nat
  max_column : Nat
  max_row : Nat
deriving DecidableEq, Repr

/-- Model of `ImageSegmentIdentificationRecord::from_bytes`. -/
def ImageSegmentIdentificationRecord.from_bytes (data : List Nat) :
    Option ImageSegmentIdentificationRecord :=
  if data.length < 17 then none
  else some
    { header_type := data.getD 0 0
      header_record_lenth := beU16 data 1
      image_id := beU16 data 3
      segment_seq := beU16 data 5
      start_col := beU16 data 7
      start_line := beU16 data 9
      max_segment := beU16 data 11
      max_column := beU16 data 13
      max_row := beU16 data 15 }

/-- Model of `NOAALRITHeader` (type 129).  The 4-byte agency signature is read
but not stored by the source. -/
structure NOAALRITHeader where
  header_type : Nat
  header_record_lenth : Nat
  product_id : Nat
  product_subid : Nat
  parameter : Nat
  noaa_compression : Nat
deriving DecidableEq, Repr

/-- Model of `NOAALRITHeader::from_bytes`. -/
def NOAALRITHeader.from_bytes (data : List Nat) : Option NOAALRITHeader :=
  if data.length < 14 then none
  else some
    { header_type := data.getD 0 0
      header_record_lenth := beU16 data 1
      product_id := beU16 data 7
      product_subid := beU16 data 9
      parameter := beU16 data 11
      noaa_compression := data.getD 13 0 }

/-- Model of `HeaderStructureRecord` (type 130). -/
structure HeaderStructureRecord where
  header_type : Nat
  header_record_lenth : Nat
  text : List Nat
deriving DecidableEq, Repr

/-- Model of `HeaderStructureRecord::from_bytes` (panic/None coalescing as for
the type 3 record). -/
def HeaderStructureRecord.from_bytes (data : List Nat) : Option HeaderStructureRecord :=
  if data.length < 3 then none
  else
    let len := beU16 data 1
    if len < 3 then none
    else some
      { header_type := data.getD 0 0
        header_record_lenth := len
        text := (data.drop 3).take (len - 3) }

/-- Model of `RiceCompressionSecondaryHeader` (type 131). -/
structure RiceCompressionSecondaryHeader where
  header_type : Nat
  header_record_lenth : Nat
  flags : Nat
  pixels_per_block : Nat
  scanlines_per_packet : Nat
deriving DecidableEq, Repr

/-- Model of `RiceCompressionSecondaryHeader::from_bytes`. -/
def RiceCompressionSecondaryHeader.from_bytes (data : List Nat) :
    Option RiceCompressionSecondaryHeader :=
  if data.length < 7 then none
  else some
    { header_type := data.getD 0 0
      header_record_lenth := beU16 data 1
      flags := beU16 data 3
      pixels_per_block := data.getD 5 0
      scanlines_per_packet := data.getD 6 0 }

/-- Model of the `Headers` aggregate.  The source field spelled `annotation`
is called `annot` here (the source name cannot be used verbatim in this
development); `img_strucutre` keeps the source spelling. -/
structure Headers where
  primary : PrimaryHeader
  img_strucutre : Option ImageStructureRecord
  img_navigation : Option ImageNavigationRecord
  img_data : Option ImageDataFunctionRecord
  img_segment : Option ImageSegmentIdentificationRecord
  annot : Option AnnotationRecord
  noaa : Option NOAALRITHeader
  header : Option HeaderStructureRecord
  timestamp : Option TimeStampRecord
  text : Option AncillaryTextRecord
  rice_compression : Option RiceCompressionSecondaryHeader
deriving DecidableEq, Repr

/-- Model of `Headers::new`. -/
def Headers.new (primary : PrimaryHeader) : Headers :=
  { primary := primary
    img_strucutre := none
    img_navigation := none
    img_data := none
    img_segment := none
    annot := none
    noaa := none
    header := none
    timestamp := none
    text := none
    rice_compression := none }

/-- One dispatch step of the `read_headers` record loop: peek the type byte at
`offset` (an out-of-bounds index is a panic) and parse the matching record
(`unwrap` on a failed parse is a panic), returning the updated aggregate and
the record length to advance by.  Type 0 and unrecognised types panic. -/
def read_headers_step (data : List Nat) (offset : Nat) (headers : Headers) :
    Except String (Headers × Nat) :=
  if offset < data.length then
    match data.getD offset 0 with
    | 1 =>
        match ImageStructureRecord.from_bytes (data.drop offset) with
        | some h => .ok ({ headers with img_strucutre := some h }, h.header_record_lenth)
        | none => .error "unwrap image structure record"
    | 2 =>
        match ImageNavigationRecord.from_bytes (data.drop offset) with
        | some h => .ok ({ headers with img_navigation := some h }, h.header_record_lenth)
        | none => .error "unwrap image navigation record"
    | 3 =>
        match ImageDataFunctionRecord.from_bytes (data.drop offset) with
        | some h => .ok ({ headers with img_data := some h }, h.header_record_lenth)
        | none => .error "unwrap image data function record"
    | 4 =>
        match AnnotationRecord.from_bytes (data.drop offset) with
        | some h => .ok ({ headers with annot := some h }, h.header_record_lenth)
        | none => .error "unwrap annotation record"
    | 5 =>
        match TimeStampRecord.from_bytes (data.drop offset) with
        | some h => .ok ({ headers with timestamp := some h }, h.header_record_lenth)
        | none => .error "unwrap time stamp record"
    | 6 =>
        match AncillaryTextRecord.from_bytes (data.drop offset) with
        | some h => .ok ({ headers with text := some h }, h.header_record_lenth)
        | none => .error "unwrap ancillary text record"
    | 128 =>
        match ImageSegmentIdentificationRecord.from_bytes (data.drop offset) with
        | some h => .ok ({ headers with img_segment := some h }, h.header_record_lenth)
        | none => .error "unwrap image segment identification record"
    | 129 =>
        match NOAALRITHeader.from_bytes (data.drop offset) with
        | some h => .ok ({ headers with noaa := some h }, h.header_record_lenth)
        | none => .error "unwrap noaa lrit header"
    | 130 =>
        match HeaderStructureRecord.from_bytes (data.drop offset) with
        | some h => .ok ({ headers with header := some h }, h.header_record_lenth)
        | none => .error "unwrap header structure record"
    | 131 =>
        match RiceCompressionSecondaryHeader.from_bytes (data.drop offset) with
        | some h => .ok ({ headers with rice_compression := some h }, h.header_record_lenth)
        | none => .error "unwrap rice compression header"
    | 0 => .error "panic unexpected header type zero"
    | _ => .error "panic unexpected header type"
  else .error "panic index out of bounds in header loop"

/-- The `while offset < total_header_length` loop of `read_headers`.  The fuel
argument makes the recursion structural: a record reporting length 0 loops
forever in the source, which is modelled by fuel exhaustion (an error, like a
panic no LRIT is ever produced from it). -/
def read_headers_loop (data : List Nat) (thl : Nat) (headers : Headers)
    (offset : Nat) : Nat → Except String Headers
  | 0 => .error "header loop does not terminate"
  | fuel + 1 =>
      if offset < thl then do
        let (headers, len) ← read_headers_step data offset headers
        read_headers_loop data thl headers (offset + len) fuel
      else .ok headers

/-- Model of `read_headers`: parse the mandatory primary header (the `expect`
and the two `assert_eq!` become errors), then walk the remaining records up to
`total_header_length`. -/
def read_headers (data : List Nat) : Except String Headers :=
  match PrimaryHeader.from_bytes data with
  | none => .error "Missing primary header"
  | some prim =>
      if prim.header_type ≠ 0 then .error "assert primary header type zero"
      else if prim.header_record_lenth ≠ 16 then .error "assert primary record length sixteen"
      else
        let headers := Headers.new prim
        if prim.total_header_length = 16 then .ok headers
        else
          read_headers_loop data prim.total_header_length headers
            prim.header_record_lenth (prim.total_header_length + 1)

/-- Model of `Option::expect`/`unwrap`: the value, or a panic. -/
def expect_some {α : Type} (o : Option α) (msg : String) : Except String α :=
  match o with
  | some a => .ok a
  | none => .error msg

/-- Model of the `LRIT` aggregate returned by `Session::finish`. -/
structure LRIT where
  vcid : Nat
  headers : Headers
  data : List Nat
deriving DecidableEq, Repr

/-- Abstraction of the external `acres::sz::Sz` rice decompressor (the crate
is not part of this repository).  `pixels_per_scanline` and `decompress` take
the four `Sz::new` constructor arguments (flag bits, bits per pixel, pixels
per block, number of columns); `decompress` returns the decoded scanline or a
numeric return code (`Err(rc)`). -/
structure RiceCtx where
  pixels_per_scanline : Nat → Nat → Nat → Nat → Nat
  decompress : Nat → Nat → Nat → Nat → List Nat → Except Nat (List Nat)

/-- Model of `DecompInfo`; `Needed` stores the four `Sz::new` arguments in
constructor order. -/
inductive DecompInfo where
  | NoneNeeded : DecompInfo
  | Needed (flags bits_per_pixel pixels_per_block num_columns : Nat) : DecompInfo
deriving DecidableEq, Repr

/-- Model of `check_headers_for_rice_compression`: decompression is needed
exactly when both the image structure record and the rice compression header
are present.  (`Options::from_bits_truncate` of the external crate is kept as
the raw flag bits.) -/
def check_headers_for_rice_compression (bytes : List Nat) : Except String DecompInfo := do
  let headers ← read_headers bytes
  match headers.img_strucutre, headers.rice_compression with
  | some ish, some rice =>
      .ok (DecompInfo.Needed rice.flags ish.bits_per_pixel rice.pixels_per_block ish.num_columns)
  | _, _ => .ok DecompInfo.NoneNeeded

/-- The `needs_decomp` probe block of `Session::new_from_pdu`: when the
buffered bytes already contain a primary header and reach its declared total
header length, inspect the full header set for rice compression; otherwise
(the source only warns) no decompression is assumed. -/
def session_probe_decomp (bytes : List Nat) : Except String DecompInfo :=
  match PrimaryHeader.from_bytes bytes with
  | some prim =>
      if prim.total_header_length ≤ bytes.length then
        check_headers_for_rice_compression bytes
      else .ok DecompInfo.NoneNeeded
  | none => .ok DecompInfo.NoneNeeded

/-- Model of the `Session` struct. -/
structure Session where
  bytes : List Nat
  last_seq : Nat
  apid : Nat
  needs_decomp : DecompInfo
  vcid : Nat
deriving DecidableEq, Repr

namespace Session

/-- Model of `Session::new_from_pdu`.  The opening assertions
(header/data/CRC), the `version()` assertion, the `truncate(len - 2)` CRC
strip, the `split_off(10)` discard of the first 10 payload bytes (a panic when
fewer than 10 bytes remain), the rice-header probe, and the
`assert_eq!(data.len(), 0)` in the rice-needed case are all modelled; the
source warnings on short buffers have no effect. -/
def new_from_pdu (pdu : TP_PDU) : Except String Session := do
  let hc ← pdu.header_complete
  if !hc then .error "assert header complete" else
  let dc ← pdu.data_complete
  if !dc then .error "assert data complete" else
  let ok ← pdu.is_crc_ok
  if !ok then .error "assert crc ok" else
  let seq ← expect_some pdu.sequence_count "pdu sequence should never be None"
  let apid ← expect_some pdu.APID "APID should never be None"
  let _ver ← pdu.version
  let bytes := pdu.data.take (pdu.data.length - 2)
  if bytes.length < 10 then .error "panic split_off out of bounds" else
  let bytes := bytes.drop 10
  let needs_decomp ← session_probe_decomp bytes
  match needs_decomp with
  | DecompInfo.Needed f b pb c => do
      let headers ← read_headers bytes
      if headers.primary.total_header_length ≤ bytes.length ∧
          (bytes.drop headers.primary.total_header_length).length = 0 then
        .ok { last_seq := seq, bytes := bytes, apid := apid,
              needs_decomp := DecompInfo.Needed f b pb c, vcid := pdu.vcid }
      else .error "assert data length zero after headers"
  | DecompInfo.NoneNeeded =>
      .ok { last_seq := seq, bytes := bytes, apid := apid,
            needs_decomp := DecompInfo.NoneNeeded, vcid := pdu.vcid }

/-- Model of `Session::append`.  A failed CRC returns the session unchanged
(the source only warns and returns).  On success the 2 CRC bytes are stripped,
the 14-bit sequence gap check only warns, `last_seq` is updated, and the data
is appended directly or through the rice decoder, whose two assertions and
`Err(rc)` panic are modelled.  The `stats` reference taken by the source is
never used by it. -/
def append (ctx : RiceCtx) (sess : Session) (pdu : TP_PDU) : Except String Session := do
  let hc ← pdu.header_complete
  if !hc then .error "assert header complete" else
  let dc ← pdu.data_complete
  if !dc then .error "assert data complete" else
  let ok ← pdu.is_crc_ok
  if !ok then .ok sess else
  let pdata := pdu.data.take (pdu.data.length - 2)
  let new_seq ← expect_some pdu.sequence_count "pdu sequence should never be None"
  let sess := { sess with last_seq := new_seq }
  match sess.needs_decomp with
  | DecompInfo.Needed f b pb c =>
      let num_columns := ctx.pixels_per_scanline f b pb c
      if num_columns < pdata.length then .error "assert rice input fits columns" else
      match ctx.decompress f b pb c pdata with
      | Except.ok buf =>
          if buf.length = num_columns then
            .ok { sess with bytes := sess.bytes ++ buf }
          else .error "assert decompressed length matches columns"
      | Except.error _rc => .error "panic failed to decompress"
  | DecompInfo.NoneNeeded =>
      if pdata.length < 1000000 then
        .ok { sess with bytes := sess.bytes ++ pdata }
      else .error "assert tp pdu data length is suspicious"

/-- Model of `Session::finish`: parse the header set from the accumulated
buffer and split the file body off at `total_header_length`
(`Vec::split_off` panics when the offset exceeds the buffer length). -/
def finish (sess : Session) : Except String LRIT := do
  let headers ← read_headers sess.bytes
  if headers.primary.total_header_length ≤ sess.bytes.length then
    .ok { vcid := sess.vcid, headers := headers,
          data := sess.bytes.drop headers.primary.total_header_length }
  else .error "panic split_off out of bounds"

end Session

/-- Model of `stats::Stat`. -/
inductive Stat where
  | Packet : Stat
  | VCDUPacket (id : Nat) : Stat
  | Bytes (n : Nat) : Stat
  | FillPacket : Stat
  | DiscardedDataPacket : Stat
  | APID (id : Nat) : Stat
deriving DecidableEq, Repr

/-- The stats recorder is modelled as the list of recorded events, in order;
the counters of the source `Stats` struct are folds of this list and the
claims only concern which events get recorded. -/
abbrev Stats := List Stat

/-- Model of `Stats::record`. -/
def Stats.record (s : Stats) (x : Stat) : Stats := s ++ [x]

/-- Lookup in an association list (first match), modelling `HashMap::get`. -/
def alist_lookup {β : Type} : List (Nat × β) → Nat → Option β
  | [], _ => none
  | (k, v) :: rest, a => if k = a then some v else alist_lookup rest a

/-- Remove a key from an association list, modelling `HashMap::remove`. -/
def alist_remove {β : Type} (m : List (Nat × β)) (k : Nat) : List (Nat × β) :=
  m.filter (fun p => p.1 != k)

/-- Replace the value stored under a key in place, modelling mutation through
`HashMap::get_mut`. -/
def alist_set {β : Type} (m : List (Nat × β)) (k : Nat) (v : β) : List (Nat × β) :=
  m.map (fun p => if p.1 = k then (p.1, v) else p)

/-- Model of the `VirtualChannel` struct. -/
structure VirtualChannel where
  id : Nat
  current_tp_pdu : Option TP_PDU
  apid_map : List (Nat × Session)
  last_counter : Nat
deriving DecidableEq, Repr

namespace VirtualChannel

/-- Model of `VirtualChannel::new`. -/
def new (id : Nat) (initial_counter : Nat) : VirtualChannel :=
  { id := id, current_tp_pdu := none, apid_map := [], last_counter := initial_counter }

/-- Model of `VirtualChannel::process` (session routing of one completed
TP_PDU by its sequence flag).  APID 2047 is dropped before any stat is
recorded; flags 1 and 3 evict any open session for the APID and open a new
one (flag 3 finishing it immediately); flag 0 appends to an open session or
records a discarded-data stat; flag 2 removes the session, appends, finishes
and emits. -/
def process (ctx : RiceCtx) (vc : VirtualChannel) (pdu : TP_PDU) (stats : Stats) :
    Except String (VirtualChannel × Stats × Option LRIT) := do
  let apid ← expect_some pdu.APID "unwrap apid"
  if apid = 2047 then .ok (vc, stats, none) else
  let stats := stats.record (Stat.APID apid)
  let fl ← expect_some pdu.flags "unwrap flags"
  if 3 < fl then .error "assert flags at most three" else
  if fl = 1 ∨ fl = 3 then do
    let m := alist_remove vc.apid_map apid
    let sess ← Session.new_from_pdu pdu
    if fl = 1 then
      .ok ({ vc with apid_map := (apid, sess) :: m }, stats, none)
    else do
      let lrit ← sess.finish
      .ok ({ vc with apid_map := m }, stats, some lrit)
  else if fl = 0 then
    match alist_lookup vc.apid_map apid with
    | some sess => do
        let sess ← Session.append ctx sess pdu
        .ok ({ vc with apid_map := alist_set vc.apid_map apid sess }, stats, none)
    | none => .ok (vc, stats.record Stat.DiscardedDataPacket, none)
  else
    match alist_lookup vc.apid_map apid with
    | some sess => do
        let sess ← Session.append ctx sess pdu
        let lrit ← sess.finish
        .ok ({ vc with apid_map := alist_remove vc.apid_map apid }, stats, some lrit)
    | none => .ok (vc, stats, none)

end VirtualChannel

/-- Model of `VCDU::VCID` over the raw 892-byte frame. -/
def VCDU.VCID (bytes : List Nat) : Nat := bytes.getD 1 0 &&& 0x3f

/-- Model of `VCDU::counter` (24-bit per-channel frame counter). -/
def VCDU.counter (bytes : List Nat) : Nat :=
  ((bytes.getD 2 0) <<< 16) ||| ((bytes.getD 3 0) <<< 8) ||| bytes.getD 4 0

/-- Model of `VCDU::data` (everything after the 6-byte frame header). -/
def VCDU.data (bytes : List Nat) : List Nat := bytes.drop 6

/-- Model of `VCDU::is_fill` (VCID 63). -/
def VCDU.is_fill (bytes : List Nat) : Bool := VCDU.VCID bytes == 63

/-- The continuation sanity check of `process_vcdu`: when the pending TP_PDU
has a known packet length and the first-header pointer is not the 2047
sentinel, the pointer must leave room for the bytes still needed (else the
source calls `panic!`). -/
def continuation_gap_check (pl : Option Nat) (first_header data_len : Nat) :
    Except String Unit :=
  match pl with
  | some total_len =>
      if first_header ≠ 2047 ∧ first_header < total_len - data_len then
        .error "panic first header smaller than bytes needed"
      else .ok ()
  | none => .ok ()

namespace VirtualChannel

/-- The `while offset < data.len()` loop at the end of `process_vcdu`: start a
fresh TP_PDU at the current offset, feed it, route it when it completed inside
the frame, otherwise retain it as `current_tp_pdu` (which must consume the
frame tail exactly).  Each iteration consumes at least one byte, so fuel
`data.length + 1` at the call site is never exhausted; fuel exhaustion is an
error for totality only. -/
def pdu_loop (ctx : RiceCtx) (vcid : Nat) (data : List Nat) (offset : Nat)
    (vc : VirtualChannel) (stats : Stats) (lrits : List LRIT) :
    Nat → Except String (VirtualChannel × Stats × List LRIT)
  | 0 => .error "pdu loop fuel exhausted"
  | fuel + 1 =>
      if offset < data.length then do
        let p0 := TP_PDU.new vcid
        let (p, n) ← p0.process_bytes (data.drop offset)
        let offset := offset + n
        let hc ← p.header_complete
        let complete ← if hc then p.data_complete else pure false
        if complete then do
          let (vc, stats, out) ← process ctx vc p stats
          pdu_loop ctx vcid data offset vc stats (lrits ++ out.toList) fuel
        else
          if offset = data.length then
            .ok ({ vc with current_tp_pdu := some p }, stats, lrits)
          else .error "assert offset equals data length"
      else .ok (vc, stats, lrits)

/-- The code of `process_vcdu` after the continuation handling: return at the
2047 sentinel, otherwise run the new-TP_PDU loop from `offset`. -/
def process_vcdu_tail (ctx : RiceCtx) (vcid : Nat) (vc : VirtualChannel) (stats : Stats)
    (lrits : List LRIT) (first_header : Nat) (data : List Nat) (offset : Nat) :
    Except String (VirtualChannel × Stats × List LRIT) :=
  if first_header = 2047 then .ok (vc, stats, lrits)
  else pdu_loop ctx vcid data offset vc stats lrits (data.length + 1)

/-- The M_PDU phase of `process_vcdu` (everything after the counter check):
the spare-bit assertion, the first-header-pointer extraction, continuation of
the pending TP_PDU, and the new-TP_PDU loop. -/
def process_vcdu_mpdu (ctx : RiceCtx) (vcid : Nat) (vc : VirtualChannel)
    (data : List Nat) (stats : Stats) :
    Except String (VirtualChannel × Stats × List LRIT) := do
  if (data.getD 0 0 &&& 0xf8) >>> 3 ≠ 0 then .error "assert spare bits zero" else
  let first_header := ((data.getD 0 0 &&& 0b111) <<< 8) ||| data.getD 1 0
  match vc.current_tp_pdu with
  | some p => do
      let vc := { vc with current_tp_pdu := none }
      let dc ← p.data_complete
      if dc then .error "assert continuation not data complete" else
      let pl ← p.packet_length
      let _ ← continuation_gap_check pl first_header p.data.length
      let (p, n) ← p.process_bytes (data.drop 2)
      let offset := 2 + n
      let hc ← p.header_complete
      if !hc then .error "assert continuation header complete" else
      let dc2 ← p.data_complete
      if dc2 then do
        let (vc, stats, out) ← process ctx vc p stats
        if first_header ≠ 2047 ∧ offset - 2 ≠ first_header then
          .error "assert offset matches first header"
        else
          process_vcdu_tail ctx vcid vc stats out.toList first_header data offset
      else
        if offset = data.length then .ok ({ vc with current_tp_pdu := some p }, stats, [])
        else .error "assert offset equals data length"
  | none =>
      process_vcdu_tail ctx vcid vc stats [] first_header data (2 + first_header)

/-- Model of `VirtualChannel::process_vcdu`: frame shape assertions, the
24-bit counter gap check (dropping the in-flight TP_PDU before any frame byte
is consumed and always updating `last_counter`), then the M_PDU phase. -/
def process_vcdu (ctx : RiceCtx) (vc : VirtualChannel) (vcdu : List Nat) (stats : Stats) :
    Except String (VirtualChannel × Stats × List LRIT) :=
  let data := VCDU.data vcdu
  if data.length ≠ 886 then .error "assert data length 886" else
  if VCDU.VCID vcdu ≠ vc.id then .error "assert vcid matches" else
  let vc := if 1 < diff_with_wrap vc.last_counter (VCDU.counter vcdu) (1 <<< 24) then
    { vc with current_tp_pdu := none } else vc
  let vc := { vc with last_counter := VCDU.counter vcdu }
  process_vcdu_mpdu ctx (VCDU.VCID vcdu) vc data stats

end VirtualChannel

/-- Model of the `App` state from `ui.rs` (only the parts the claims touch:
the stats recorder and the per-VCID channel map; the message pane and redraw
clock are UI state with no effect on the pipeline). -/
structure App where
  stats : Stats
  vcs : List (Nat × VirtualChannel)
deriving DecidableEq, Repr

/-- Model of `App::process`: record packet stats, drop fill frames, look up or
lazily create the `VirtualChannel` for the VCID (seeding `last_counter` from
the frame counter itself), and delegate to `process_vcdu`. -/
def App.process (ctx : RiceCtx) (app : App) (vcdu : List Nat) :
    Except String (App × List LRIT) := do
  let id := VCDU.VCID vcdu
  let stats := (app.stats.record Stat.Packet).record (Stat.VCDUPacket id)
  if VCDU.is_fill vcdu then .ok ({ app with stats := stats }, []) else
  let vc := match alist_lookup app.vcs id with
    | some vc => vc
    | none => VirtualChannel.new id (VCDU.counter vcdu)
  let vcs := match alist_lookup app.vcs id with
    | some _ => app.vcs
    | none => app.vcs ++ [(id, vc)]
  let (vc, stats, lrits) ← VirtualChannel.process_vcdu ctx vc vcdu stats
  .ok ({ stats := stats, vcs := alist_set vcs id vc }, lrits)

/-- Model of `HandlerError` (payload details of the error carriers are not
needed by the claims). -/
inductive HandlerError where
  | Skipped : HandlerError
  | Io : HandlerError
  | Zip : HandlerError
  | MissingHeader (name : String) : HandlerError
  | Parse (reason : String) : HandlerError
  | Other : HandlerError
deriving DecidableEq, Repr

/-- Rust whitespace test used by `str::trim` on the ASCII bytes the DCS header
fields hold (the lossy UTF-8 replacement character is not whitespace). -/
def is_rust_whitespace (b : Nat) : Bool := b == 32 || (9 ≤ b && b ≤ 13)

/-- Trim whitespace bytes from both ends, modelling `str::trim`. -/
def trim_bytes (l : List Nat) : List Nat :=
  ((l.dropWhile is_rust_whitespace).reverse.dropWhile is_rust_whitespace).reverse

/-- Model of `str::parse::<u64>` on ASCII bytes: an optional leading plus
sign, then at least one decimal digit, rejecting values outside u64 range. -/
def parse_u64_ascii (l : List Nat) : Option Nat :=
  let l := match l with
    | 43 :: rest => rest
    | _ => l
  if l.isEmpty then none
  else if l.all (fun b => 48 ≤ b && b ≤ 57) then
    let v := l.foldl (fun acc b => acc * 10 + (b - 48)) 0
    if v < 2 ^ 64 then some v else none
  else none

/-- Little-endian 32-bit read at byte offset `i`. -/
def leU32 (d : List Nat) (i : Nat) : Nat :=
  (d.getD i 0) ||| ((d.getD (i + 1) 0) <<< 8) |||
    ((d.getD (i + 2) 0) <<< 16) ||| ((d.getD (i + 3) 0) <<< 24)

/-- Model of `DcsHeader` (`goeslib/src/handlers/dcs.rs`).  Text fields are
kept as trimmed raw bytes. -/
structure DcsHeader where
  name : List Nat
  payload_len : Nat
  payload_source : List Nat
  payload_type : List Nat
  header_crc : Nat
  file_crc : Nat
deriving DecidableEq, Repr

/-- Model of `DcsHeader::parse`: 64 header bytes (name 32, ASCII-decimal
payload length 8, source 4, type 4, reserved 12, header CRC-32 LE), plus the
file CRC-32 read from the last 4 bytes.  Fewer than 64 bytes make a cursor
read fail (`?` returns an Io error).  The two CRC-32 comparisons only warn in
the source and are omitted here: they touch no returned value. -/
def DcsHeader.parse (data : List Nat) : Except HandlerError DcsHeader :=
  if data.length < 64 then .error HandlerError.Io
  else
    match parse_u64_ascii (trim_bytes ((data.drop 32).take 8)) with
    | some v =>
        .ok { name := trim_bytes (data.take 32)
              payload_len := v
              payload_source := trim_bytes ((data.drop 40).take 4)
              payload_type := trim_bytes ((data.drop 44).take 4)
              header_crc := leU32 data 60
              file_crc := leU32 data (data.length - 4) }
    | none => .error (HandlerError.Parse "Failed to parse payload len in DCS header")

/-- The ASCII bytes of the string DCSH. -/
def dcsh_bytes : List Nat := [68, 67, 83, 72]

/-- Model of `DcsHandler::handle` up to and including the
`assert_eq!(header.payload_len as usize, lrit.data.len())` statement.  The
outer `Except String` is a panic; the inner `Except HandlerError` is the Rust
result.  `.ok (.ok ())` means the assertion passed and the handler proceeds to
DCS block parsing and file output (file-system effects beyond the modelled
claims). -/
def DcsHandler.handle_checks (lrit : LRIT) : Except String (Except HandlerError Unit) :=
  if lrit.headers.primary.filetype_code ≠ 130 then .ok (.error HandlerError.Skipped)
  else
    match lrit.headers.noaa with
    | none => .ok (.error (HandlerError.MissingHeader "NOAA"))
    | some noaa =>
        if noaa.product_id ≠ 8 then .ok (.error HandlerError.Skipped)
        else
          match lrit.headers.annot with
          | none => .ok (.error (HandlerError.MissingHeader "annotation"))
          | some _ann =>
              match DcsHeader.parse lrit.data with
              | .error e => .ok (.error e)
              | .ok header =>
                  if header.payload_type ≠ dcsh_bytes then
                    .ok (.error (HandlerError.Parse "Expected DCSH payload type"))
                  else if header.payload_len ≠ lrit.data.length then
                    .error "assert payload len equals lrit data len"
                  else .ok (.ok ())

/-- Chunked feeding of the TP_PDU assembler: feed each chunk with
`process_bytes` in turn, stopping as soon as the unit completes, and return
the final state with the total consumed-byte count. -/
def feed_chunks (p : TP_PDU) : List (List Nat) → Except String (TP_PDU × Nat)
  | [] => .ok (p, 0)
  | c :: cs => do
      let (p1, n1) ← p.process_bytes c
      let dc ← p1.data_complete
      if dc then .ok (p1, n1)
      else do
        let (p2, n2) ← feed_chunks p1 cs
        .ok (p2, n1 + n2)

/-- A TP_PDU whose data section is incomplete: either the 6-byte header is
not yet full, or the data length is strictly below the declared packet length
(the 16-bit header field plus one). -/
def pdu_incomplete (p : TP_PDU) : Prop :=
  p.header.length ≠ 6 ∨ p.data.length < beU16 p.header 4 + 1

/-- A trivial rice decoder instance used to instantiate witnesses whose
sessions never need decompression. -/
def rice_ctx0 : RiceCtx :=
  { pixels_per_scanline := fun _ _ _ c => c
    decompress := fun _ _ _ _ _ => .error 0 }

/-- A 16-byte LRIT primary header declaring total header length 16 (no
secondary records, empty file body). -/
def prim16_bytes : List Nat := [0, 0, 16, 0, 0, 0, 0, 16, 0, 0, 0, 0, 0, 0, 0, 0]

/-- Concrete session for the C1 witness: buffer is exactly the 16-byte
primary header. -/
def wsess_C1 : Session := ⟨prim16_bytes, 0, 100, DecompInfo.NoneNeeded, 1⟩

/-- The parsed primary header of `prim16_bytes`. -/
def wprim16 : PrimaryHeader := ⟨0, 16, 0, 16, 0⟩

/-- The LRIT that finishing `wsess_C1` produces. -/
def wlrit_C1 : LRIT := ⟨1, Headers.new wprim16, []⟩

/-- Concrete session for the C2 scenario (same primary-only buffer). -/
def wsess_C2 : Session := ⟨prim16_bytes, 0, 100, DecompInfo.NoneNeeded, 1⟩

/-- Channel holding an open session for APID 100 (C2 scenario). -/
def wvc_C2 : VirtualChannel := ⟨1, none, [(100, wsess_C2)], 0⟩

/-- Completed flag-2 TP_PDU for APID 100 whose CRC check fails (the declared
length is 4, the data is four zero bytes, and the CRC-16 of two zero bytes is
not zero). -/
def wpdu_C2 : TP_PDU := ⟨[0, 100, 0x80, 0, 0, 3], [0, 0, 0, 0], 1⟩

/-- Completed flag-0 TP_PDU for APID 100 with the same failing CRC payload. -/
def wpdu_C2f0 : TP_PDU := ⟨[0, 100, 0, 0, 0, 3], [0, 0, 0, 0], 1⟩

/-- The LRIT that the flag-2 CRC-failure path of C2 still emits. -/
def wlrit_C2 : LRIT := ⟨1, Headers.new wprim16, []⟩

/-- Concrete open session for the C3 witnesses. -/
def wsess_C3 : Session := ⟨prim16_bytes, 0, 100, DecompInfo.NoneNeeded, 1⟩

/-- Channel with an open session for APID 100 (C3 witnesses). -/
def wvc_C3 : VirtualChannel := ⟨1, none, [(100, wsess_C3)], 0⟩

/-- Channel with no open sessions (C3 witnesses). -/
def wvc_C3e : VirtualChannel := ⟨1, none, [], 0⟩

/-- Payload body of an opening TP_PDU: 10 discarded bytes then the 16-byte
primary header. -/
def wbody_C3 : List Nat := List.replicate 10 0 ++ prim16_bytes

/-- The same body with its correct trailing CRC-16 appended (28 bytes). -/
def wpay_C3 : List Nat :=
  wbody_C3 ++ [calc_crc16 wbody_C3 / 256, calc_crc16 wbody_C3 % 256]

/-- Valid unsegmented (flag 3) TP_PDU for APID 100 (C3 witness). -/
def wpdu_C3f3 : TP_PDU := ⟨[0, 100, 0xc0, 0, 0, 27], wpay_C3, 1⟩

/-- Valid first-of-many (flag 1) TP_PDU for APID 100 (C3 witness). -/
def wpdu_C3f1 : TP_PDU := ⟨[0, 100, 0x40, 0, 0, 27], wpay_C3, 1⟩

/-- Valid flag-0 TP_PDU with an empty application body (its payload is just
the CRC-16 of no bytes, 0xFFFF). -/
def wpdu_C3f0 : TP_PDU := ⟨[0, 100, 0, 0, 0, 1], [0xff, 0xff], 1⟩

/-- Valid flag-2 TP_PDU with an empty application body. -/
def wpdu_C3f2 : TP_PDU := ⟨[0, 100, 0x80, 0, 0, 1], [0xff, 0xff], 1⟩

/-- Fill TP_PDU (APID 2047). -/
def wpdu_C3fill : TP_PDU := ⟨[7, 255, 0, 0, 0, 0], [], 1⟩

/-- The session `Session::new_from_pdu` builds from `wpdu_C3f3`/`wpdu_C3f1`. -/
def wsess_C3n : Session := ⟨prim16_bytes, 0, 100, DecompInfo.NoneNeeded, 1⟩

/-- The LRIT emitted for the flag-3 and flag-2 C3 witnesses. -/
def wlrit_C3 : LRIT := ⟨1, Headers.new wprim16, []⟩

/-- Concrete 892-byte frame for the C4 witness: VCID 1, counter 5, first
header pointer 0, one flag-0 TP_PDU for APID 100 whose declared length 878
completes exactly at the end of the frame. -/
def wframe_C4 : List Nat :=
  [0, 1, 0, 0, 5, 0] ++ [0, 0] ++ [0, 100, 0, 0, 3, 109] ++ List.replicate 878 0

/-- Channel (VCID 1, last counter 0) seeing `wframe_C4`, a counter gap of 5. -/
def wvc_C4 : VirtualChannel := ⟨1, none, [], 0⟩

/-- The channel state after `wvc_C4` processes `wframe_C4`. -/
def wvc_C4a : VirtualChannel := ⟨1, none, [], 5⟩

/-- Session whose buffer declares total header length 40 but holds only 20
bytes (primary header claiming 40, then an annotation record of declared
length 24 with only 4 bytes present). -/
def wsess_C5 : Session :=
  ⟨[0, 0, 16, 0, 0, 0, 0, 40, 0, 0, 0, 0, 0, 0, 0, 0, 4, 0, 24, 0], 0, 100,
    DecompInfo.NoneNeeded, 1⟩

/-- The header aggregate `read_headers` parses out of `wsess_C5.bytes`. -/
def whdrs_C5 : Headers := { Headers.new ⟨0, 16, 0, 40, 0⟩ with annot := some ⟨4, 24, [0]⟩ }

/-- Channel holding the undersized session `wsess_C5` for APID 100. -/
def wvc_C5 : VirtualChannel := ⟨1, none, [(100, wsess_C5)], 0⟩

/-- Valid flag-2 TP_PDU with an empty application body, terminating the
undersized C5 session. -/
def wpdu_C5 : TP_PDU := ⟨[0, 100, 0x80, 0, 0, 1], [0xff, 0xff], 1⟩

/-- TP_PDU with an all-zero header: the 16-bit length field is 0, so the
declared packet length is 1. -/
def wpdu_C6z : TP_PDU := ⟨[0, 0, 0, 0, 0, 0], [], 0⟩

/-- TP_PDU with length field 5 (declared packet length 6), for the C6
witness. -/
def wpdu_C6 : TP_PDU := ⟨[0, 0, 0, 0, 0, 5], [], 0⟩

/-- Ten-byte opening payload body for the C7 witness. -/
def wbase_C7 : List Nat := List.replicate 10 0

/-- Opening TP_PDU (flag 1, APID 100, declared length 12) whose payload is
`wbase_C7` followed by its correct CRC-16. -/
def wpdu_C7 : TP_PDU :=
  ⟨[0, 100, 0x40, 0, 0, 11],
    wbase_C7 ++ [calc_crc16 wbase_C7 / 256, calc_crc16 wbase_C7 % 256], 1⟩

/-- The session `Session::new_from_pdu` builds from `wpdu_C7` (empty buffer:
all 10 non-CRC payload bytes are discarded). -/
def wsess_C7 : Session := ⟨[], 0, 100, DecompInfo.NoneNeeded, 1⟩

/-- Chunk split for the C8 witness (total 10 bytes: a 6-byte header declaring
packet length 4, then 4 data bytes). -/
def wchunks_C8 : List (List Nat) := [[0], [100, 0xc0], [0, 0, 3], [1, 2, 3], [4]]

/-- A 64-byte DCS file whose ASCII payload-length field says 100 although the
file itself is 64 bytes long: blank name, length field "100", blank source,
type "DCSH", zero reserved bytes and zero CRC. -/
def wdcs_data_C9 : List Nat :=
  List.replicate 32 32 ++ [49, 48, 48, 32, 32, 32, 32, 32] ++ List.replicate 4 32 ++
    [68, 67, 83, 72] ++ List.replicate 12 0 ++ List.replicate 4 0

/-- DCS LRIT (filetype 130, NOAA product 8, annotation present) carrying
`wdcs_data_C9`, whose header payload length does not match the data length. -/
def wlrit_C9 : LRIT :=
  ⟨1, { Headers.new ⟨0, 16, 130, 16, 0⟩ with
          noaa := some ⟨129, 14, 8, 0, 0, 0⟩
          annot := some ⟨4, 12, [65]⟩ },
    wdcs_data_C9⟩

/-- Concrete 892-byte frame for the C10 witness: VCID 1, counter 7, first
header pointer 0, a TP_PDU declaring length 1001 of which only 878 bytes fit
in the frame, so it is retained incomplete. -/
def wframe_C10 : List Nat :=
  [0, 1, 0, 0, 7, 0] ++ [0, 0] ++ [0, 100, 0, 0, 3, 232] ++ List.replicate 878 0

/-- The incomplete TP_PDU retained after `wframe_C10`. -/
def wpdu_C10 : TP_PDU := ⟨[0, 100, 0, 0, 3, 232], List.replicate 878 0, 1⟩

/-- Channel (VCID 1, last counter 7) seeing `wframe_C10` with no gap. -/
def wvc_C10 : VirtualChannel := ⟨1, none, [], 7⟩

/-- The channel state after `wvc_C10` processes `wframe_C10`: the TP_PDU is
retained incomplete. -/
def wvc_C10a : VirtualChannel := ⟨1, some wpdu_C10, [], 7⟩

/-- Decidable equality for `Except`, so concrete runs of the model can be
checked by `decide`. -/
instance except_dec_eq {ε α : Type} [DecidableEq ε] [DecidableEq α] :
    DecidableEq (Except ε α)
  | .ok a, .ok b =>
      if h : a = b then .isTrue (by rw [h])
      else .isFalse (by intro he; cases he; exact h rfl)
  | .ok _, .error _ => .isFalse (by intro he; cases he)
  | .error _, .ok _ => .isFalse (by intro he; cases he)
  | .error e, .error f =>
      if h : e = f then .isTrue (by rw [h])
      else .isFalse (by intro he; cases he; exact h rfl)

/-- Bind on a successful `Except` computes the continuation. -/
theorem bind_ok_elim {α β : Type} (a : α) (f : α → Except String β) :
    (Except.ok a >>= f) = f a := rfl

/-- Bind on a failed `Except` short-circuits. -/
theorem bind_err_elim {α β : Type} (e : String) (f : α → Except String β) :
    ((Except.error e : Except String α) >>= f) = Except.error e := rfl

/-- C6 counterexample: with the all-zero header the declared packet length is
1, not at least 2: the claim `2 ≤ length` fails for the 16-bit field value 0. -/
theorem spec_C6_cex :
    TP_PDU.packet_length wpdu_C6z = .ok (some 1) ∧ ¬ 2 ≤ 1 := by decide

/-- C6 amended: whenever `packet_length` returns a value it is the 16-bit
length-minus-one field plus 1 and lies between 1 and 8192 (the upper bound is
enforced by an assertion that panics above 8192); the lower bound 2 of the
original claim is not enforced. -/
theorem spec_C6 : ∀ (p : TP_PDU) (l : Nat), p.packet_length = .ok (some l) →
    1 ≤ l ∧ l ≤ 8192 ∧ l = beU16 p.header 4 + 1 := by
  intro p l h
  unfold TP_PDU.packet_length TP_PDU.header_complete at h
  split at h
  · rw [bind_ok_elim] at h
    split at h
    · dsimp only at h
      split at h
      · cases h
        refine ⟨by omega, by assumption, rfl⟩
      · cases h
    · cases h
  · rw [bind_err_elim] at h
    cases h

/-- C6 witness: the amended bound at the concrete length field 5. -/
theorem spec_C6_witness : 1 ≤ 6 ∧ 6 ≤ 8192 ∧ 6 = beU16 wpdu_C6.header 4 + 1 :=
  spec_C6 wpdu_C6 6 (by decide)

/-- C1: every LRIT emitted by `Session::finish` has
`total_header_length ≤ length of the session buffer`, and its data is exactly
the suffix of that buffer from offset `total_header_length`. -/
theorem spec_C1 : ∀ (sess : Session) (lrit : LRIT), Session.finish sess = .ok lrit →
    lrit.headers.primary.total_header_length ≤ sess.bytes.length ∧
    lrit.data = sess.bytes.drop lrit.headers.primary.total_header_length := by
  intro sess lrit h
  unfold Session.finish at h
  cases hr : read_headers sess.bytes with
  | error e => rw [hr, bind_err_elim] at h; cases h
  | ok hs =>
      rw [hr, bind_ok_elim] at h
      split at h
      · cases h
        exact ⟨by assumption, rfl⟩
      · cases h

/-- C1 witness: a primary-header-only session finishes into an LRIT whose
data is the empty suffix at offset 16. -/
theorem spec_C1_witness :
    wlrit_C1.headers.primary.total_header_length ≤ wsess_C1.bytes.length ∧
    wlrit_C1.data = wsess_C1.bytes.drop wlrit_C1.headers.primary.total_header_length :=
  spec_C1 wsess_C1 wlrit_C1 (by decide)

/-- C5 amended: when the parsed total header length exceeds the accumulated
buffer length, `Session::finish` panics (the `split_off` bound check); no
LRIT is emitted, and because the panic propagates, processing does not
continue past it. -/
theorem spec_C5 : ∀ (sess : Session) (hs : Headers),
    read_headers sess.bytes = .ok hs →
    sess.bytes.length < hs.primary.total_header_length →
    Session.finish sess = .error "panic split_off out of bounds" := by
  intro sess hs hr hlt
  unfold Session.finish
  rw [hr, bind_ok_elim, if_neg (by omega)]

/-- C5 witness: the concrete undersized session makes `finish` panic. -/
theorem spec_C5_witness :
    Session.finish wsess_C5 = .error "panic split_off out of bounds" :=
  spec_C5 wsess_C5 whdrs_C5 (by decide) (by decide)

/-- C5 counterexample to the containment clause: the panic escapes the
session - routing the terminal flag-2 TP_PDU of the undersized session makes
the whole `VirtualChannel::process` call fail instead of discarding the
session and continuing. -/
theorem spec_C5_cex :
    VirtualChannel.process rice_ctx0 wvc_C5 wpdu_C5 [] =
      .error "panic split_off out of bounds" := by decide

/-- C9: at a concrete DCS LRIT whose ASCII payload-length field (100) does
not match the data length (64), the handler hits `assert_eq!` and panics
instead of warning and continuing. -/
theorem spec_C9_code_bug :
    DcsHandler.handle_checks wlrit_C9 = .error "assert payload len equals lrit data len" := by
  decide


/-- C7: whenever `Session::new_from_pdu` succeeds, the initial session buffer
is exactly the opening payload from index 10 up to but excluding the 2
trailing CRC bytes, and the payload is at least 12 bytes long (shorter
payloads make the `split_off(10)` panic, and CRC/completeness are enforced by
the opening assertions). -/
theorem spec_C7 : ∀ (pdu : TP_PDU) (sess : Session),
    Session.new_from_pdu pdu = .ok sess →
    sess.bytes = (pdu.data.take (pdu.data.length - 2)).drop 10 ∧
    12 ≤ pdu.data.length := by
  intro pdu sess h
  unfold Session.new_from_pdu at h
  cases hhc : pdu.header_complete with
  | error e => rw [hhc, bind_err_elim] at h; cases h
  | ok b1 =>
  rw [hhc, bind_ok_elim] at h
  split at h
  · cases h
  cases hdc : pdu.data_complete with
  | error e => rw [hdc, bind_err_elim] at h; cases h
  | ok b2 =>
  rw [hdc, bind_ok_elim] at h
  split at h
  · cases h
  cases hcrc : pdu.is_crc_ok with
  | error e => rw [hcrc, bind_err_elim] at h; cases h
  | ok b3 =>
  rw [hcrc, bind_ok_elim] at h
  split at h
  · cases h
  cases hsq : expect_some pdu.sequence_count "pdu sequence should never be None" with
  | error e => rw [hsq, bind_err_elim] at h; cases h
  | ok seq =>
  rw [hsq, bind_ok_elim] at h
  cases hap : expect_some pdu.APID "APID should never be None" with
  | error e => rw [hap, bind_err_elim] at h; cases h
  | ok apid =>
  rw [hap, bind_ok_elim] at h
  cases hv : pdu.version with
  | error e => rw [hv, bind_err_elim] at h; cases h
  | ok v =>
  rw [hv, bind_ok_elim] at h
  dsimp only at h
  split at h
  · cases h
  next hlen =>
  have hlen12 : 12 ≤ pdu.data.length := by
    have := List.length_take (pdu.data.length - 2) pdu.data
    omega
  cases hpr : session_probe_decomp ((pdu.data.take (pdu.data.length - 2)).drop 10) with
  | error e => rw [hpr, bind_err_elim] at h; cases h
  | ok di =>
  rw [hpr, bind_ok_elim] at h
  cases di with
  | NoneNeeded => cases h; exact ⟨rfl, hlen12⟩
  | Needed f b pb c =>
      dsimp only at h
      cases hrh : read_headers ((pdu.data.take (pdu.data.length - 2)).drop 10) with
      | error e => rw [hrh, bind_err_elim] at h; cases h
      | ok hs =>
          rw [hrh, bind_ok_elim] at h
          split at h
          · cases h; exact ⟨rfl, hlen12⟩
          · cases h

/-- C7 witness: the concrete 12-byte opening TP_PDU yields the empty buffer
predicted by the slice formula. -/
theorem spec_C7_witness :
    wsess_C7.bytes = (wpdu_C7.data.take (wpdu_C7.data.length - 2)).drop 10 ∧
    12 ≤ wpdu_C7.data.length :=
  spec_C7 wpdu_C7 wsess_C7 (by decide)

/-- Setting a key to a value at a different key leaves lookups unchanged. -/
theorem alist_lookup_set_ne {β : Type} (m : List (Nat × β)) (k : Nat) (v : β)
    (a : Nat) (hne : a ≠ k) :
    alist_lookup (alist_set m k v) a = alist_lookup m a := by
  induction m with
  | nil => rfl
  | cons p rest ih =>
      obtain ⟨pk, pv⟩ := p
      show alist_lookup ((if pk = k then (pk, v) else (pk, pv)) :: alist_set rest k v) a = _
      by_cases hk : pk = k
      · rw [if_pos hk]
        subst hk
        show (if pk = a then some v else alist_lookup (alist_set rest pk v) a) = _
        rw [if_neg (fun hpa => hne hpa.symm)]
        show _ = (if pk = a then some pv else alist_lookup rest a)
        rw [if_neg (fun hpa => hne hpa.symm)]
        exact ih
      · rw [if_neg hk]
        show (if pk = a then some pv else alist_lookup (alist_set rest k v) a) = _
        show _ = (if pk = a then some pv else alist_lookup rest a)
        by_cases ha : pk = a
        · rw [if_pos ha, if_pos ha]
        · rw [if_neg ha, if_neg ha]
          exact ih

/-- Setting a key back to its currently looked-up value changes no lookup. -/
theorem alist_lookup_set_self {β : Type} (m : List (Nat × β)) (k : Nat) (v : β)
    (h : alist_lookup m k = some v) (a : Nat) :
    alist_lookup (alist_set m k v) a = alist_lookup m a := by
  by_cases ha : a = k
  · subst ha
    rw [h]
    induction m with
    | nil => cases h
    | cons p rest ih =>
        obtain ⟨pk, pv⟩ := p
        show alist_lookup ((if pk = a then (pk, v) else (pk, pv)) :: alist_set rest a v) a = _
        by_cases hk : pk = a
        · rw [if_pos hk]
          show (if pk = a then some v else _) = _
          rw [if_pos hk]
        · rw [if_neg hk]
          show (if pk = a then some pv else alist_lookup (alist_set rest a v) a) = _
          rw [if_neg hk]
          have h2 : alist_lookup rest a = some v := by
            have heq : alist_lookup ((pk, pv) :: rest) a = alist_lookup rest a := by
              show (if pk = a then some pv else alist_lookup rest a) = _
              rw [if_neg hk]
            rw [← heq]; exact h
          exact ih h2
  · exact alist_lookup_set_ne m k v a ha

/-- C2 counterexample: a completed flag-2 TP_PDU whose CRC check fails does
not leave the channel unchanged - the open session for its APID is removed
and an LRIT is still emitted from the bytes accumulated before it. -/
theorem spec_C2_cex :
    TP_PDU.is_crc_ok wpdu_C2 = .ok false ∧
    VirtualChannel.process rice_ctx0 wvc_C2 wpdu_C2 [] =
      .ok (⟨1, none, [], 0⟩, [Stat.APID 100], some wlrit_C2) := by decide

/-- C2 amended: a completed TP_PDU whose CRC fails never modifies the session
it would extend (`Session::append` returns it untouched), and under flag-0
routing the channel is unchanged observationally - no LRIT, same in-flight
TP_PDU, same counter, same session under every APID.  (The original claim
fails for flag 2, which still removes the session and emits an LRIT, and for
flags 1 and 3, which panic on the CRC assertion.) -/
theorem spec_C2 (ctx : RiceCtx) (sess : Session) (pdu : TP_PDU)
    (vc : VirtualChannel) (stats : Stats) (vc' : VirtualChannel) (stats' : Stats)
    (out : Option LRIT) (apid : Nat)
    (hhc : pdu.header_complete = .ok true)
    (hdc : pdu.data_complete = .ok true)
    (hcrc : pdu.is_crc_ok = .ok false)
    (hapid : pdu.APID = some apid) (hne : apid ≠ 2047) (hfl : pdu.flags = some 0)
    (hrun : VirtualChannel.process ctx vc pdu stats = .ok (vc', stats', out)) :
    Session.append ctx sess pdu = .ok sess ∧ out = none ∧
    vc'.current_tp_pdu = vc.current_tp_pdu ∧ vc'.last_counter = vc.last_counter ∧
    ∀ a, alist_lookup vc'.apid_map a = alist_lookup vc.apid_map a := by
  have happ : ∀ s0 : Session, Session.append ctx s0 pdu = .ok s0 := by
    intro s0
    unfold Session.append
    rw [hhc, bind_ok_elim]
    simp only [Bool.not_true, Bool.false_eq_true, if_false]
    rw [hdc, bind_ok_elim]
    simp only [Bool.not_true, Bool.false_eq_true, if_false]
    rw [hcrc, bind_ok_elim]
    simp only [Bool.not_false, if_true]
  refine ⟨happ sess, ?_⟩
  unfold VirtualChannel.process at hrun
  rw [hapid] at hrun
  simp only [expect_some, bind_ok_elim] at hrun
  rw [if_neg hne] at hrun
  rw [hfl] at hrun
  simp only [expect_some, bind_ok_elim] at hrun
  rw [if_neg (by decide : ¬ (3 : Nat) < 0)] at hrun
  rw [if_neg (by decide : ¬ ((0 : Nat) = 1 ∨ (0 : Nat) = 3))] at hrun
  simp only [if_true] at hrun
  cases hlk : alist_lookup vc.apid_map apid with
  | none =>
      rw [hlk] at hrun
      dsimp only at hrun
      cases hrun
      exact ⟨rfl, rfl, rfl, fun a => rfl⟩
  | some s =>
      rw [hlk] at hrun
      dsimp only at hrun
      rw [happ s, bind_ok_elim] at hrun
      cases hrun
      exact ⟨rfl, rfl, rfl, fun a => alist_lookup_set_self vc.apid_map apid s hlk a⟩

/-- C2 witness: a concrete flag-0 CRC-failing TP_PDU leaves both the session
and the channel lookup state unchanged. -/
theorem spec_C2_witness :
    Session.append rice_ctx0 wsess_C2 wpdu_C2f0 = .ok wsess_C2 ∧
    alist_lookup wvc_C2.apid_map 100 = alist_lookup wvc_C2.apid_map 100 :=
  ⟨(spec_C2 rice_ctx0 wsess_C2 wpdu_C2f0 wvc_C2 [] wvc_C2 [Stat.APID 100] none 100
      (by decide) (by decide) (by decide) (by decide) (by decide) (by decide)
      (by decide)).1,
    (spec_C2 rice_ctx0 wsess_C2 wpdu_C2f0 wvc_C2 [] wvc_C2 [Stat.APID 100] none 100
      (by decide) (by decide) (by decide) (by decide) (by decide) (by decide)
      (by decide)).2.2.2.2 100⟩

/-- C3: session routing follows the sequence flag exactly.  Flag 3 evicts any
open session for the APID, opens a session and immediately finishes it,
emitting one LRIT; flag 1 evicts and retains the new session under the APID;
flag 0 appends to an open session, else records one discarded-data stat and
emits nothing; flag 2 appends and finishes an open session, emitting one
LRIT, else discards; APID 2047 is dropped silently with no state change and
no stat. -/
theorem spec_C3 (ctx : RiceCtx) :
    (∀ (vc : VirtualChannel) (stats : Stats) (pdu : TP_PDU) (apid : Nat)
        (sess : Session) (lrit : LRIT),
      pdu.APID = some apid → apid ≠ 2047 → pdu.flags = some 3 →
      Session.new_from_pdu pdu = .ok sess → Session.finish sess = .ok lrit →
      VirtualChannel.process ctx vc pdu stats =
        .ok ({ vc with apid_map := alist_remove vc.apid_map apid },
          stats.record (Stat.APID apid), some lrit)) ∧
    (∀ (vc : VirtualChannel) (stats : Stats) (pdu : TP_PDU) (apid : Nat)
        (sess : Session),
      pdu.APID = some apid → apid ≠ 2047 → pdu.flags = some 1 →
      Session.new_from_pdu pdu = .ok sess →
      VirtualChannel.process ctx vc pdu stats =
        .ok ({ vc with apid_map := (apid, sess) :: alist_remove vc.apid_map apid },
          stats.record (Stat.APID apid), none) ∧
      alist_lookup ((apid, sess) :: alist_remove vc.apid_map apid) apid = some sess) ∧
    (∀ (vc : VirtualChannel) (stats : Stats) (pdu : TP_PDU) (apid : Nat)
        (sess sess2 : Session),
      pdu.APID = some apid → apid ≠ 2047 → pdu.flags = some 0 →
      alist_lookup vc.apid_map apid = some sess →
      Session.append ctx sess pdu = .ok sess2 →
      VirtualChannel.process ctx vc pdu stats =
        .ok ({ vc with apid_map := alist_set vc.apid_map apid sess2 },
          stats.record (Stat.APID apid), none)) ∧
    (∀ (vc : VirtualChannel) (stats : Stats) (pdu : TP_PDU) (apid : Nat),
      pdu.APID = some apid → apid ≠ 2047 → pdu.flags = some 0 →
      alist_lookup vc.apid_map apid = none →
      VirtualChannel.process ctx vc pdu stats =
        .ok (vc, (stats.record (Stat.APID apid)).record Stat.DiscardedDataPacket, none)) ∧
    (∀ (vc : VirtualChannel) (stats : Stats) (pdu : TP_PDU) (apid : Nat)
        (sess sess2 : Session) (lrit : LRIT),
      pdu.APID = some apid → apid ≠ 2047 → pdu.flags = some 2 →
      alist_lookup vc.apid_map apid = some sess →
      Session.append ctx sess pdu = .ok sess2 → Session.finish sess2 = .ok lrit →
      VirtualChannel.process ctx vc pdu stats =
        .ok ({ vc with apid_map := alist_remove vc.apid_map apid },
          stats.record (Stat.APID apid), some lrit)) ∧
    (∀ (vc : VirtualChannel) (stats : Stats) (pdu : TP_PDU) (apid : Nat),
      pdu.APID = some apid → apid ≠ 2047 → pdu.flags = some 2 →
      alist_lookup vc.apid_map apid = none →
      VirtualChannel.process ctx vc pdu stats =
        .ok (vc, stats.record (Stat.APID apid), none)) ∧
    (∀ (vc : VirtualChannel) (stats : Stats) (pdu : TP_PDU),
      pdu.APID = some 2047 →
      VirtualChannel.process ctx vc pdu stats = .ok (vc, stats, none)) := by
  refine ⟨?_, ?_, ?_, ?_, ?_, ?_, ?_⟩
  · intro vc stats pdu apid sess lrit hapid hne hfl hnew hfin
    unfold VirtualChannel.process
    rw [hapid]
    simp only [expect_some, bind_ok_elim]
    rw [if_neg hne, hfl]
    simp only [expect_some, bind_ok_elim]
    rw [if_neg (by decide : ¬ (3 : Nat) < 3)]
    simp only [or_true, if_true]
    rw [hnew, bind_ok_elim]
    rw [if_neg (by decide : ¬ (3 : Nat) = 1)]
    rw [hfin, bind_ok_elim]
  · intro vc stats pdu apid sess hapid hne hfl hnew
    constructor
    · unfold VirtualChannel.process
      rw [hapid]
      simp only [expect_some, bind_ok_elim]
      rw [if_neg hne, hfl]
      simp only [expect_some, bind_ok_elim]
      rw [if_neg (by decide : ¬ (3 : Nat) < 1)]
      simp only [true_or, if_true]
      rw [hnew, bind_ok_elim]
    · show (if apid = apid then some sess else _) = some sess
      rw [if_pos rfl]
  · intro vc stats pdu apid sess sess2 hapid hne hfl hlk happ
    unfold VirtualChannel.process
    rw [hapid]
    simp only [expect_some, bind_ok_elim]
    rw [if_neg hne, hfl]
    simp only [expect_some, bind_ok_elim]
    rw [if_neg (by decide : ¬ (3 : Nat) < 0)]
    rw [if_neg (by decide : ¬ ((0 : Nat) = 1 ∨ (0 : Nat) = 3))]
    simp only [if_true]
    rw [hlk]
    dsimp only
    rw [happ, bind_ok_elim]
  · intro vc stats pdu apid hapid hne hfl hlk
    unfold VirtualChannel.process
    rw [hapid]
    simp only [expect_some, bind_ok_elim]
    rw [if_neg hne, hfl]
    simp only [expect_some, bind_ok_elim]
    rw [if_neg (by decide : ¬ (3 : Nat) < 0)]
    rw [if_neg (by decide : ¬ ((0 : Nat) = 1 ∨ (0 : Nat) = 3))]
    simp only [if_true]
    rw [hlk]
  · intro vc stats pdu apid sess sess2 lrit hapid hne hfl hlk happ hfin
    unfold VirtualChannel.process
    rw [hapid]
    simp only [expect_some, bind_ok_elim]
    rw [if_neg hne, hfl]
    simp only [expect_some, bind_ok_elim]
    rw [if_neg (by decide : ¬ (3 : Nat) < 2)]
    rw [if_neg (by decide : ¬ ((2 : Nat) = 1 ∨ (2 : Nat) = 3))]
    rw [if_neg (by decide : ¬ (2 : Nat) = 0)]
    rw [hlk]
    dsimp only
    rw [happ, bind_ok_elim, hfin, bind_ok_elim]
  · intro vc stats pdu apid hapid hne hfl hlk
    unfold VirtualChannel.process
    rw [hapid]
    simp only [expect_some, bind_ok_elim]
    rw [if_neg hne, hfl]
    simp only [expect_some, bind_ok_elim]
    rw [if_neg (by decide : ¬ (3 : Nat) < 2)]
    rw [if_neg (by decide : ¬ ((2 : Nat) = 1 ∨ (2 : Nat) = 3))]
    rw [if_neg (by decide : ¬ (2 : Nat) = 0)]
    rw [hlk]
  · intro vc stats pdu hapid
    unfold VirtualChannel.process
    rw [hapid]
    simp only [expect_some, bind_ok_elim, if_true]

/-- C3 witness: all seven routing behaviors at concrete completed TP_PDUs
(valid flag 3, 1, 0, 2 units, with and without an open session, and a fill
APID). -/
theorem spec_C3_witness :
    VirtualChannel.process rice_ctx0 wvc_C3 wpdu_C3f3 [] =
      .ok ({ wvc_C3 with apid_map := alist_remove wvc_C3.apid_map 100 },
        Stats.record [] (Stat.APID 100), some wlrit_C3) ∧
    VirtualChannel.process rice_ctx0 wvc_C3 wpdu_C3f1 [] =
      .ok ({ wvc_C3 with apid_map := (100, wsess_C3n) :: alist_remove wvc_C3.apid_map 100 },
        Stats.record [] (Stat.APID 100), none) ∧
    VirtualChannel.process rice_ctx0 wvc_C3 wpdu_C3f0 [] =
      .ok ({ wvc_C3 with apid_map := alist_set wvc_C3.apid_map 100 wsess_C3 },
        Stats.record [] (Stat.APID 100), none) ∧
    VirtualChannel.process rice_ctx0 wvc_C3e wpdu_C3f0 [] =
      .ok (wvc_C3e, Stats.record (Stats.record [] (Stat.APID 100)) Stat.DiscardedDataPacket,
        none) ∧
    VirtualChannel.process rice_ctx0 wvc_C3 wpdu_C3f2 [] =
      .ok ({ wvc_C3 with apid_map := alist_remove wvc_C3.apid_map 100 },
        Stats.record [] (Stat.APID 100), some wlrit_C3) ∧
    VirtualChannel.process rice_ctx0 wvc_C3e wpdu_C3f2 [] =
      .ok (wvc_C3e, Stats.record [] (Stat.APID 100), none) ∧
    VirtualChannel.process rice_ctx0 wvc_C3e wpdu_C3fill [] = .ok (wvc_C3e, [], none) :=
  ⟨(spec_C3 rice_ctx0).1 wvc_C3 [] wpdu_C3f3 100 wsess_C3n wlrit_C3
      (by decide) (by decide) (by decide) (by decide) (by decide),
    ((spec_C3 rice_ctx0).2.1 wvc_C3 [] wpdu_C3f1 100 wsess_C3n
      (by decide) (by decide) (by decide) (by decide)).1,
    (spec_C3 rice_ctx0).2.2.1 wvc_C3 [] wpdu_C3f0 100 wsess_C3 wsess_C3
      (by decide) (by decide) (by decide) (by decide) (by decide),
    (spec_C3 rice_ctx0).2.2.2.1 wvc_C3e [] wpdu_C3f0 100
      (by decide) (by decide) (by decide) (by decide),
    (spec_C3 rice_ctx0).2.2.2.2.1 wvc_C3 [] wpdu_C3f2 100 wsess_C3 wsess_C3 wlrit_C3
      (by decide) (by decide) (by decide) (by decide) (by decide) (by decide),
    (spec_C3 rice_ctx0).2.2.2.2.2.1 wvc_C3e [] wpdu_C3f2 100
      (by decide) (by decide) (by decide) (by decide),
    (spec_C3 rice_ctx0).2.2.2.2.2.2 wvc_C3e [] wpdu_C3fill (by decide)⟩

/-- A TP_PDU reporting an incomplete header has header length other than 6. -/
theorem header_complete_false (p : TP_PDU) (h : p.header_complete = .ok false) :
    p.header.length ≠ 6 := by
  unfold TP_PDU.header_complete at h
  split at h
  · injection h with h2
    intro h6
    rw [h6] at h2
    simp at h2
  · cases h

/-- A TP_PDU with a complete header reporting incomplete data has strictly
fewer data bytes than its declared packet length. -/
theorem data_complete_false_lt (p : TP_PDU) (hhc : p.header_complete = .ok true)
    (hdc : p.data_complete = .ok false) :
    p.data.length < beU16 p.header 4 + 1 := by
  have hpl : p.packet_length = .ok (some (beU16 p.header 4 + 1)) ∨
      p.packet_length = .error "assert len is too long" := by
    unfold TP_PDU.packet_length
    rw [hhc, bind_ok_elim]
    simp only [if_true]
    split
    · exact Or.inl rfl
    · exact Or.inr rfl
  cases hpl with
  | inr he =>
      unfold TP_PDU.data_complete at hdc
      rw [he, bind_err_elim] at hdc
      cases hdc
  | inl hok =>
      unfold TP_PDU.data_complete at hdc
      rw [hok, bind_ok_elim] at hdc
      dsimp only at hdc
      split at hdc
      · next hle =>
          injection hdc with h2
          have hne : p.data.length ≠ beU16 p.header 4 + 1 := by
            intro hx
            rw [hx] at h2
            simp at h2
          omega
      · cases hdc

/-- Session routing never touches the channel id, the in-flight TP_PDU or
the frame counter: only the APID map (and the stats/output) change. -/
theorem process_preserves (ctx : RiceCtx) (vc : VirtualChannel) (pdu : TP_PDU)
    (stats : Stats) (vc' : VirtualChannel) (stats' : Stats) (out : Option LRIT)
    (h : VirtualChannel.process ctx vc pdu stats = .ok (vc', stats', out)) :
    vc'.id = vc.id ∧ vc'.current_tp_pdu = vc.current_tp_pdu ∧
    vc'.last_counter = vc.last_counter := by
  unfold VirtualChannel.process at h
  cases ha : expect_some pdu.APID "unwrap apid" with
  | error e => rw [ha, bind_err_elim] at h; cases h
  | ok apid =>
  rw [ha, bind_ok_elim] at h
  split at h
  · cases h; exact ⟨rfl, rfl, rfl⟩
  cases hf : expect_some pdu.flags "unwrap flags" with
  | error e => rw [hf, bind_err_elim] at h; cases h
  | ok fl =>
  rw [hf, bind_ok_elim] at h
  split at h
  · cases h
  split at h
  · cases hn : Session.new_from_pdu pdu with
    | error e => rw [hn, bind_err_elim] at h; cases h
    | ok sess =>
    rw [hn, bind_ok_elim] at h
    split at h
    · cases h; exact ⟨rfl, rfl, rfl⟩
    · cases hfin : Session.finish sess with
      | error e => rw [hfin, bind_err_elim] at h; cases h
      | ok l =>
          rw [hfin, bind_ok_elim] at h
          cases h
          exact ⟨rfl, rfl, rfl⟩
  split at h
  · cases hlk : alist_lookup vc.apid_map apid with
    | none => rw [hlk] at h; dsimp only at h; cases h; exact ⟨rfl, rfl, rfl⟩
    | some sess =>
        rw [hlk] at h
        dsimp only at h
        cases happ2 : Session.append ctx sess pdu with
        | error e => rw [happ2, bind_err_elim] at h; cases h
        | ok sess2 =>
            rw [happ2, bind_ok_elim] at h
            cases h
            exact ⟨rfl, rfl, rfl⟩
  · cases hlk : alist_lookup vc.apid_map apid with
    | none => rw [hlk] at h; dsimp only at h; cases h; exact ⟨rfl, rfl, rfl⟩
    | some sess =>
        rw [hlk] at h
        dsimp only at h
        cases happ2 : Session.append ctx sess pdu with
        | error e => rw [happ2, bind_err_elim] at h; cases h
        | ok sess2 =>
            rw [happ2, bind_ok_elim] at h
            cases hfin : Session.finish sess2 with
            | error e => rw [hfin, bind_err_elim] at h; cases h
            | ok l =>
                rw [hfin, bind_ok_elim] at h
                cases h
                exact ⟨rfl, rfl, rfl⟩

/-- The new-TP_PDU loop preserves the channel id and frame counter, and any
TP_PDU it retains as `current_tp_pdu` is incomplete (assuming the same of the
input channel). -/
theorem pdu_loop_inv (ctx : RiceCtx) (vcid : Nat) (data : List Nat) :
    ∀ (fuel offset : Nat) (vc : VirtualChannel) (stats : Stats) (lrits : List LRIT)
      (vc' : VirtualChannel) (stats' : Stats) (lrits' : List LRIT),
    VirtualChannel.pdu_loop ctx vcid data offset vc stats lrits fuel = .ok (vc', stats', lrits') →
    (∀ p, vc.current_tp_pdu = some p → pdu_incomplete p) →
    (∀ p, vc'.current_tp_pdu = some p → pdu_incomplete p) ∧
    vc'.id = vc.id ∧ vc'.last_counter = vc.last_counter := by
  intro fuel
  induction fuel with
  | zero =>
      intro offset vc stats lrits vc' stats' lrits' h hinv
      cases h
  | succ fuel ih =>
      intro offset vc stats lrits vc' stats' lrits' h hinv
      unfold VirtualChannel.pdu_loop at h
      split at h
      · dsimp only at h
        cases hpb : TP_PDU.process_bytes (TP_PDU.new vcid) (data.drop offset) with
        | error e => rw [hpb, bind_err_elim] at h; cases h
        | ok pr =>
        obtain ⟨p, n⟩ := pr
        rw [hpb, bind_ok_elim] at h
        dsimp only at h
        cases hhc : p.header_complete with
        | error e => rw [hhc, bind_err_elim] at h; cases h
        | ok hc =>
        rw [hhc, bind_ok_elim] at h
        cases hc with
        | false =>
            simp only [Bool.false_eq_true, if_false] at h
            rw [pure_bind] at h
            simp only [Bool.false_eq_true, if_false] at h
            split at h
            · cases h
              refine ⟨?_, rfl, rfl⟩
              intro q hq
              injection hq with hq2
              subst hq2
              exact Or.inl (header_complete_false p hhc)
            · cases h
        | true =>
            simp only [if_true] at h
            cases hdcp : p.data_complete with
            | error e => rw [hdcp, bind_err_elim] at h; cases h
            | ok dcv =>
            rw [hdcp, bind_ok_elim] at h
            cases dcv with
            | true =>
                simp only [if_true] at h
                cases hproc : VirtualChannel.process ctx vc p stats with
                | error e => rw [hproc, bind_err_elim] at h; cases h
                | ok r =>
                obtain ⟨vc2, stats2, out⟩ := r
                rw [hproc, bind_ok_elim] at h
                dsimp only at h
                obtain ⟨hid2, hcur2, hlast2⟩ :=
                  process_preserves ctx vc p stats vc2 stats2 out hproc
                have hinv2 : ∀ q, vc2.current_tp_pdu = some q → pdu_incomplete q := by
                  intro q hq
                  exact hinv q (hcur2 ▸ hq)
                obtain ⟨hi, hb, hc⟩ := ih (offset + n) vc2 stats2 (lrits ++ out.toList)
                  vc' stats' lrits' h hinv2
                exact ⟨hi, hb.trans hid2, hc.trans hlast2⟩
            | false =>
                simp only [Bool.false_eq_true, if_false] at h
                split at h
                · cases h
                  refine ⟨?_, rfl, rfl⟩
                  intro q hq
                  injection hq with hq2
                  subst hq2
                  exact Or.inr (data_complete_false_lt p hhc hdcp)
                · cases h
      · cases h
        exact ⟨hinv, rfl, rfl⟩

/-- The post-continuation tail of `process_vcdu` preserves id and counter and
retains only incomplete TP_PDUs (assuming the same of its input channel). -/
theorem process_vcdu_tail_inv (ctx : RiceCtx) (vcid : Nat) (vc : VirtualChannel)
    (stats : Stats) (lrits : List LRIT) (fh : Nat) (data : List Nat) (offset : Nat)
    (vc' : VirtualChannel) (stats' : Stats) (lrits' : List LRIT)
    (h : VirtualChannel.process_vcdu_tail ctx vcid vc stats lrits fh data offset =
      .ok (vc', stats', lrits'))
    (hinv : ∀ p, vc.current_tp_pdu = some p → pdu_incomplete p) :
    (∀ p, vc'.current_tp_pdu = some p → pdu_incomplete p) ∧
    vc'.id = vc.id ∧ vc'.last_counter = vc.last_counter := by
  unfold VirtualChannel.process_vcdu_tail at h
  split at h
  · cases h
    exact ⟨hinv, rfl, rfl⟩
  · exact pdu_loop_inv ctx vcid data (data.length + 1) offset vc stats lrits
      vc' stats' lrits' h hinv

/-- The M_PDU phase preserves the channel id and frame counter, and whenever
it returns, its retained `current_tp_pdu` (if any) is incomplete. -/
theorem process_vcdu_mpdu_inv (ctx : RiceCtx) (vcid : Nat) (vc : VirtualChannel)
    (data : List Nat) (stats : Stats) (vc' : VirtualChannel) (stats' : Stats)
    (lrits' : List LRIT)
    (h : VirtualChannel.process_vcdu_mpdu ctx vcid vc data stats = .ok (vc', stats', lrits')) :
    vc'.id = vc.id ∧ vc'.last_counter = vc.last_counter ∧
    (∀ p, vc'.current_tp_pdu = some p → pdu_incomplete p) := by
  unfold VirtualChannel.process_vcdu_mpdu at h
  split at h
  · cases h
  split at h
  case h_1 p0 hcur =>
    dsimp only at h
    cases hdc0 : p0.data_complete with
    | error e => rw [hdc0, bind_err_elim] at h; cases h
    | ok dc0 =>
    rw [hdc0, bind_ok_elim] at h
    split at h
    · cases h
    cases hpl0 : p0.packet_length with
    | error e => rw [hpl0, bind_err_elim] at h; cases h
    | ok pl =>
    rw [hpl0, bind_ok_elim] at h
    cases hgc : continuation_gap_check pl (((data.getD 0 0 &&& 0b111) <<< 8) ||| data.getD 1 0) p0.data.length with
    | error e => rw [hgc, bind_err_elim] at h; cases h
    | ok u =>
    rw [hgc, bind_ok_elim] at h
    cases hpb : p0.process_bytes (data.drop 2) with
    | error e => rw [hpb, bind_err_elim] at h; cases h
    | ok pr =>
    obtain ⟨p1, n⟩ := pr
    rw [hpb, bind_ok_elim] at h
    dsimp only at h
    cases hhc1 : p1.header_complete with
    | error e => rw [hhc1, bind_err_elim] at h; cases h
    | ok hc =>
    rw [hhc1, bind_ok_elim] at h
    cases hc with
    | false => simp only [Bool.not_false, if_true] at h; cases h
    | true =>
    simp only [Bool.not_true, Bool.false_eq_true, if_false] at h
    cases hdc2 : p1.data_complete with
    | error e => rw [hdc2, bind_err_elim] at h; cases h
    | ok dc2 =>
    rw [hdc2, bind_ok_elim] at h
    cases dc2 with
    | true =>
        simp only [if_true] at h
        cases hproc : VirtualChannel.process ctx { vc with current_tp_pdu := none } p1 stats with
        | error e => rw [hproc, bind_err_elim] at h; cases h
        | ok r =>
        obtain ⟨vc2, stats2, out⟩ := r
        rw [hproc, bind_ok_elim] at h
        dsimp only at h
        obtain ⟨hid2, hcur2, hlast2⟩ :=
          process_preserves ctx { vc with current_tp_pdu := none } p1 stats vc2 stats2 out hproc
        split at h
        · cases h
        · obtain ⟨hi, hb, hc⟩ := process_vcdu_tail_inv ctx vcid vc2 stats2 out.toList
            _ data _ vc' stats' lrits' h
            (by intro q hq; rw [hcur2] at hq; cases hq)
          exact ⟨hb.trans hid2, hc.trans hlast2, hi⟩
    | false =>
        simp only [Bool.false_eq_true, if_false] at h
        split at h
        · cases h
          refine ⟨rfl, rfl, ?_⟩
          intro q hq
          injection hq with hq2
          subst hq2
          exact Or.inr (data_complete_false_lt p1 hhc1 hdc2)
        · cases h
  case h_2 hcur =>
    obtain ⟨hi, hb, hc⟩ := process_vcdu_tail_inv ctx vcid vc stats []
      _ data _ vc' stats' lrits' h
      (by intro q hq; rw [hcur] at hq; cases hq)
    exact ⟨hb, hc, hi⟩

/-- Whenever `process_vcdu` returns, the channel keeps its id, carries the
frame's own counter as `last_counter`, and retains only an incomplete TP_PDU
(if any). -/
theorem process_vcdu_ok_shape (ctx : RiceCtx) (vc : VirtualChannel) (vcdu : List Nat)
    (stats : Stats) (vc' : VirtualChannel) (stats' : Stats) (lrits : List LRIT)
    (h : VirtualChannel.process_vcdu ctx vc vcdu stats = .ok (vc', stats', lrits)) :
    vc'.last_counter = VCDU.counter vcdu ∧ vc'.id = vc.id ∧
    (∀ p, vc'.current_tp_pdu = some p → pdu_incomplete p) := by
  unfold VirtualChannel.process_vcdu at h
  by_cases h886 : (VCDU.data vcdu).length ≠ 886
  · rw [if_pos h886] at h; cases h
  · rw [if_neg h886] at h
    by_cases hvc : VCDU.VCID vcdu ≠ vc.id
    · rw [if_pos hvc] at h; cases h
    · rw [if_neg hvc] at h
      by_cases hgap : 1 < diff_with_wrap vc.last_counter (VCDU.counter vcdu) (1 <<< 24)
      · rw [if_pos hgap] at h
        obtain ⟨hid, hlast, hinv⟩ := process_vcdu_mpdu_inv ctx (VCDU.VCID vcdu) _ _ stats
          vc' stats' lrits h
        exact ⟨hlast, hid, hinv⟩
      · rw [if_neg hgap] at h
        obtain ⟨hid, hlast, hinv⟩ := process_vcdu_mpdu_inv ctx (VCDU.VCID vcdu) _ _ stats
          vc' stats' lrits h
        exact ⟨hlast, hid, hinv⟩

/-- Appending a binding for an absent key makes it the lookup result. -/
theorem alist_lookup_append_none {β : Type} (m : List (Nat × β)) (k : Nat) (v : β)
    (h : alist_lookup m k = none) :
    alist_lookup (m ++ [(k, v)]) k = some v := by
  induction m with
  | nil => show (if k = k then some v else none) = some v; rw [if_pos rfl]
  | cons p rest ih =>
      obtain ⟨pk, pv⟩ := p
      show (if pk = k then some pv else alist_lookup (rest ++ [(k, v)]) k) = some v
      have hh : alist_lookup ((pk, pv) :: rest) k = none := h
      by_cases hk : pk = k
      · rw [show alist_lookup ((pk, pv) :: rest) k =
            (if pk = k then some pv else alist_lookup rest k) from rfl, if_pos hk] at hh
        cases hh
      · rw [if_neg hk]
        rw [show alist_lookup ((pk, pv) :: rest) k =
            (if pk = k then some pv else alist_lookup rest k) from rfl, if_neg hk] at hh
        exact ih hh

/-- Setting a present key makes the new value the lookup result. -/
theorem alist_lookup_set_eq {β : Type} (m : List (Nat × β)) (k : Nat) (v w : β)
    (h : alist_lookup m k = some w) :
    alist_lookup (alist_set m k v) k = some v := by
  induction m with
  | nil => cases h
  | cons p rest ih =>
      obtain ⟨pk, pv⟩ := p
      show alist_lookup ((if pk = k then (pk, v) else (pk, pv)) :: alist_set rest k v) k = some v
      by_cases hk : pk = k
      · rw [if_pos hk]
        show (if pk = k then some v else _) = some v
        rw [if_pos hk]
      · rw [if_neg hk]
        show (if pk = k then some pv else alist_lookup (alist_set rest k v) k) = some v
        rw [if_neg hk]
        have hh : alist_lookup rest k = some w := by
          have heq : alist_lookup ((pk, pv) :: rest) k =
              (if pk = k then some pv else alist_lookup rest k) := rfl
          rw [heq, if_neg hk] at h
          exact h
        exact ih hh

/-- C10: whenever `process_vcdu` returns, the retained `current_tp_pdu` is
either absent or incomplete (header unfilled or data strictly below the
declared length): a TP_PDU that completed within the frame was routed in the
same call and is never carried across frames. -/
theorem spec_C10 : ∀ (ctx : RiceCtx) (vc : VirtualChannel) (vcdu : List Nat)
    (stats : Stats) (vc' : VirtualChannel) (stats' : Stats) (lrits : List LRIT),
    VirtualChannel.process_vcdu ctx vc vcdu stats = .ok (vc', stats', lrits) →
    ∀ p, vc'.current_tp_pdu = some p → pdu_incomplete p :=
  fun ctx vc vcdu stats vc' stats' lrits h =>
    (process_vcdu_ok_shape ctx vc vcdu stats vc' stats' lrits h).2.2

/-- C10 witness: the frame whose single TP_PDU declares 1001 bytes leaves an
incomplete TP_PDU retained in the channel. -/
theorem spec_C10_witness : pdu_incomplete wpdu_C10 :=
  spec_C10 rice_ctx0 wvc_C10 wframe_C10 [] wvc_C10a [] [] (by decide) wpdu_C10 rfl

/-- C4: the counter check of `process_vcdu`.  With modular distance above 1
the in-flight TP_PDU is dropped before any byte of the frame is consumed
(processing is identical to starting with no in-flight TP_PDU); whenever the
call returns, `last_counter` equals the frame's own counter; and a channel
freshly created by the demultiplexer - seeded with the frame's own counter -
has modular distance 0, so the first frame never triggers a gap drop.  On a
first non-fill frame for an unseen VCID, `App::process` delegates to exactly
such a freshly seeded channel and stores its result state. -/
theorem spec_C4 (ctx : RiceCtx) (vc : VirtualChannel) (vcdu : List Nat) (stats : Stats) :
    (1 < diff_with_wrap vc.last_counter (VCDU.counter vcdu) (1 <<< 24) →
      VirtualChannel.process_vcdu ctx vc vcdu stats =
        VirtualChannel.process_vcdu ctx { vc with current_tp_pdu := none } vcdu stats) ∧
    (∀ (vc' : VirtualChannel) (stats' : Stats) (lrits : List LRIT),
      VirtualChannel.process_vcdu ctx vc vcdu stats = .ok (vc', stats', lrits) →
      vc'.last_counter = VCDU.counter vcdu) ∧
    diff_with_wrap (VirtualChannel.new (VCDU.VCID vcdu) (VCDU.counter vcdu)).last_counter
      (VCDU.counter vcdu) (1 <<< 24) = 0 ∧
    (∀ (app : App) (lrits : List LRIT) (vc2 : VirtualChannel) (stats2 : Stats),
      VCDU.is_fill vcdu = false →
      alist_lookup app.vcs (VCDU.VCID vcdu) = none →
      VirtualChannel.process_vcdu ctx
        (VirtualChannel.new (VCDU.VCID vcdu) (VCDU.counter vcdu)) vcdu
        ((app.stats.record Stat.Packet).record (Stat.VCDUPacket (VCDU.VCID vcdu))) =
        .ok (vc2, stats2, lrits) →
      App.process ctx app vcdu =
        .ok ({ stats := stats2,
               vcs := alist_set
                 (app.vcs ++
                   [(VCDU.VCID vcdu, VirtualChannel.new (VCDU.VCID vcdu) (VCDU.counter vcdu))])
                 (VCDU.VCID vcdu) vc2 }, lrits) ∧
      alist_lookup
        (alist_set
          (app.vcs ++ [(VCDU.VCID vcdu, VirtualChannel.new (VCDU.VCID vcdu) (VCDU.counter vcdu))])
          (VCDU.VCID vcdu) vc2) (VCDU.VCID vcdu) = some vc2) := by
  refine ⟨?_, ?_, ?_, ?_⟩
  · intro hgap
    unfold VirtualChannel.process_vcdu
    dsimp only
    rw [if_pos hgap, if_pos hgap]
  · intro vc' stats' lrits h
    exact (process_vcdu_ok_shape ctx vc vcdu stats vc' stats' lrits h).1
  · simp [VirtualChannel.new, diff_with_wrap]
  · intro app lrits vc2 stats2 hfill hlk hrun
    constructor
    · unfold App.process
      rw [hfill]
      simp only [Bool.false_eq_true, if_false]
      rw [hlk]
      dsimp only
      rw [hrun, bind_ok_elim]
    · exact alist_lookup_set_eq _ _ _ _
        (alist_lookup_append_none app.vcs (VCDU.VCID vcdu)
          (VirtualChannel.new (VCDU.VCID vcdu) (VCDU.counter vcdu)) hlk)

/-- C4 witness: at the concrete frame (counter 5) and a channel at counter 0,
the gap drop is equivalent to clearing the in-flight TP_PDU; the returned
state carries the frame counter; the seeded distance is 0; and the
demultiplexer seeds a fresh channel from the frame itself. -/
theorem spec_C4_witness :
    (VirtualChannel.process_vcdu rice_ctx0 wvc_C4 wframe_C4 [] =
      VirtualChannel.process_vcdu rice_ctx0 { wvc_C4 with current_tp_pdu := none }
        wframe_C4 []) ∧
    wvc_C4a.last_counter = VCDU.counter wframe_C4 ∧
    diff_with_wrap
      (VirtualChannel.new (VCDU.VCID wframe_C4) (VCDU.counter wframe_C4)).last_counter
      (VCDU.counter wframe_C4) (1 <<< 24) = 0 ∧
    App.process rice_ctx0 ⟨[], []⟩ wframe_C4 =
      .ok ({ stats := [Stat.Packet, Stat.VCDUPacket 1, Stat.APID 100,
                       Stat.DiscardedDataPacket],
             vcs := alist_set
               ([] ++ [(VCDU.VCID wframe_C4,
                 VirtualChannel.new (VCDU.VCID wframe_C4) (VCDU.counter wframe_C4))])
               (VCDU.VCID wframe_C4) wvc_C4a }, []) :=
  ⟨(spec_C4 rice_ctx0 wvc_C4 wframe_C4 []).1 (by decide),
    (spec_C4 rice_ctx0 wvc_C4 wframe_C4 []).2.1 wvc_C4a
      [Stat.APID 100, Stat.DiscardedDataPacket] [] (by decide),
    (spec_C4 rice_ctx0 wvc_C4 wframe_C4 []).2.2.1,
    ((spec_C4 rice_ctx0 wvc_C4 wframe_C4 []).2.2.2 ⟨[], []⟩ [] wvc_C4a
      [Stat.Packet, Stat.VCDUPacket 1, Stat.APID 100, Stat.DiscardedDataPacket]
      (by decide) (by decide) (by decide)).1⟩

/-- An oversized header buffer makes `process_bytes` panic immediately. -/
theorem process_bytes_hdr_over (p : TP_PDU) (bs : List Nat)
    (h : 6 < p.header.length) :
    p.process_bytes bs = .error "assert header length at most six" := by
  unfold TP_PDU.process_bytes TP_PDU.header_complete
  rw [if_neg (by omega)]
  rfl

/-- Closed form of `process_bytes` when the header is already complete: only
the data phase runs. -/
theorem process_bytes_hdr_done (p : TP_PDU) (bs : List Nat)
    (h6 : p.header.length = 6) :
    p.process_bytes bs =
      (if beU16 p.header 4 + 1 ≤ 8192 then
        (if beU16 p.header 4 + 1 - p.data.length = 0 then
          .error "assert needed positive"
        else
          .ok ({ p with data := p.data ++
                   bs.take (min (beU16 p.header 4 + 1 - p.data.length) bs.length) },
            min (beU16 p.header 4 + 1 - p.data.length) bs.length))
      else .error "assert len is too long") := by
  unfold TP_PDU.process_bytes TP_PDU.header_complete
  rw [if_pos (by omega : p.header.length ≤ 6)]
  rw [bind_ok_elim]
  rw [show (p.header.length == 6) = true by simp [h6]]
  simp only [Bool.not_true, Bool.false_eq_true, if_false]
  rw [bind_ok_elim]
  unfold TP_PDU.packet_length TP_PDU.header_complete
  rw [if_pos (by omega : p.header.length ≤ 6)]
  rw [bind_ok_elim]
  rw [show (p.header.length == 6) = true by simp [h6]]
  simp only [if_true]
  split
  · rw [bind_ok_elim]
    dsimp only
    split
    · rfl
    · simp only [List.drop_zero, Nat.sub_zero, Nat.zero_add]
  · rw [bind_err_elim]

/-- Closed form of `process_bytes` when the header is incomplete and input is
available: the header fills first, then the data phase runs if it completed. -/
theorem process_bytes_hdr_fill (p : TP_PDU) (bs : List Nat)
    (hlt : p.header.length < 6) (hbs : bs ≠ []) :
    p.process_bytes bs =
      (let a := min (6 - p.header.length) bs.length
       let H := p.header ++ bs.take a
       if p.header.length + a = 6 then
        (if beU16 H 4 + 1 ≤ 8192 then
          (if beU16 H 4 + 1 - p.data.length = 0 then
            .error "assert needed positive"
          else
            .ok ({ header := H,
                   data := p.data ++
                     (bs.drop a).take (min (beU16 H 4 + 1 - p.data.length) (bs.length - a)),
                   vcid := p.vcid },
              a + min (beU16 H 4 + 1 - p.data.length) (bs.length - a)))
        else .error "assert len is too long")
       else .ok (⟨H, p.data, p.vcid⟩, a)) := by
  have hbs1 : 1 ≤ bs.length := by
    cases bs with
    | nil => exact absurd rfl hbs
    | cons b t => simp
  unfold TP_PDU.process_bytes TP_PDU.header_complete
  rw [if_pos (by omega : p.header.length ≤ 6)]
  rw [bind_ok_elim]
  rw [show (p.header.length == 6) = false by simp; omega]
  simp only [Bool.not_false, if_true]
  rw [if_neg (by omega : ¬ min (6 - p.header.length) bs.length = 0)]
  rw [if_neg (by omega : ¬ 6 < min (6 - p.header.length) bs.length)]
  rw [bind_ok_elim]
  dsimp only
  unfold TP_PDU.packet_length TP_PDU.header_complete
  have hlen : (p.header ++ bs.take (min (6 - p.header.length) bs.length)).length =
      p.header.length + min (6 - p.header.length) bs.length := by
    simp only [List.length_append, List.length_take]
    omega
  rw [if_pos (by rw [hlen]; omega)]
  rw [bind_ok_elim]
  by_cases hfull : p.header.length + min (6 - p.header.length) bs.length = 6
  · rw [show ((p.header ++ bs.take (min (6 - p.header.length) bs.length)).length == 6) = true
        by rw [hlen]; simp [hfull]]
    simp only [if_true, hfull]
    split
    · rfl
    · rfl
  · rw [show ((p.header ++ bs.take (min (6 - p.header.length) bs.length)).length == 6) = false
        by rw [hlen]; simp [hfull]]
    simp only [Bool.false_eq_true, if_false]
    rw [bind_ok_elim]
    rw [if_neg hfull]

/-- Closed form of `data_complete` for a complete, in-range header. -/
theorem data_complete_closed (p : TP_PDU) (h6 : p.header.length = 6)
    (hlen : beU16 p.header 4 + 1 ≤ 8192)
    (hle : p.data.length ≤ beU16 p.header 4 + 1) :
    p.data_complete = .ok (p.data.length == beU16 p.header 4 + 1) := by
  unfold TP_PDU.data_complete TP_PDU.packet_length TP_PDU.header_complete
  rw [if_pos (by omega : p.header.length ≤ 6)]
  rw [bind_ok_elim]
  rw [show (p.header.length == 6) = true by simp [h6]]
  simp only [if_true]
  rw [if_pos hlen]
  rw [bind_ok_elim]
  dsimp only
  rw [if_pos hle]

/-- A TP_PDU with an unfinished header reports incomplete data. -/
theorem data_complete_hdr_low (p : TP_PDU) (hlt : p.header.length < 6) :
    p.data_complete = .ok false := by
  unfold TP_PDU.data_complete TP_PDU.packet_length TP_PDU.header_complete
  rw [if_pos (by omega : p.header.length ≤ 6)]
  rw [bind_ok_elim]
  rw [show (p.header.length == 6) = false by simp; omega]
  simp only [Bool.false_eq_true, if_false]
  rw [bind_ok_elim]

/-- `process_bytes` with an unfinished header and no input panics on the
`assert!(a > 0)`. -/
theorem process_bytes_nil_low (p : TP_PDU) (hlt : p.header.length < 6) :
    p.process_bytes [] = .error "assert a positive" := by
  unfold TP_PDU.process_bytes TP_PDU.header_complete
  rw [if_pos (by omega : p.header.length ≤ 6)]
  rw [bind_ok_elim]
  rw [show (p.header.length == 6) = false by simp; omega]
  simp only [Bool.not_false, if_true]
  rw [if_pos (by simp)]
  rw [bind_err_elim]

/-- Any state `process_bytes` returns successfully is well formed: either the
header is still short, or it is exactly 6 bytes with an in-range declared
length and no data overflow. -/
theorem process_bytes_ok_wf (p : TP_PDU) (bs : List Nat) (p1 : TP_PDU) (n : Nat)
    (h : p.process_bytes bs = .ok (p1, n)) :
    p1.header.length < 6 ∨
    (p1.header.length = 6 ∧ beU16 p1.header 4 + 1 ≤ 8192 ∧
      p1.data.length ≤ beU16 p1.header 4 + 1) := by
  rcases Nat.lt_trichotomy p.header.length 6 with hlt | h6 | hgt
  · by_cases hbs : bs = []
    · subst hbs
      rw [process_bytes_nil_low p hlt] at h
      cases h
    · rw [process_bytes_hdr_fill p bs hlt hbs] at h
      dsimp only at h
      split at h
      · split at h
        · split at h
          · cases h
          · cases h
            next hfull h8 hne =>
            refine Or.inr ⟨?_, ?_, ?_⟩
            · simp only [List.length_append, List.length_take]
              omega
            · exact h8
            · simp only [List.length_append, List.length_take]
              omega
        · cases h
      · cases h
        next hfull =>
        refine Or.inl ?_
        simp only [List.length_append, List.length_take]
        omega
  · rw [process_bytes_hdr_done p bs h6] at h
    split at h
    · split at h
      · cases h
      · cases h
        next h8 hne =>
        refine Or.inr ⟨h6, h8, ?_⟩
        simp only [List.length_append, List.length_take]
        omega
    · cases h
  · rw [process_bytes_hdr_over p bs hgt] at h
    cases h

/-- After a successful `process_bytes`, `data_complete` never panics. -/
theorem process_bytes_ok_dc (p : TP_PDU) (bs : List Nat) (p1 : TP_PDU) (n : Nat)
    (h : p.process_bytes bs = .ok (p1, n)) :
    ∃ b, p1.data_complete = .ok b := by
  rcases process_bytes_ok_wf p bs p1 n h with hlt | ⟨h6, h8, hle⟩
  · exact ⟨false, data_complete_hdr_low p1 hlt⟩
  · exact ⟨_, data_complete_closed p1 h6 h8 hle⟩

/-- Feeding a concatenation to the assembler equals feeding the two parts in
sequence, stopping if the unit completes after the first part; the consumed
counts add. -/
theorem process_bytes_append (p : TP_PDU) (xs ys : List Nat)
    (hxs : xs ≠ []) (hys : ys ≠ []) :
    p.process_bytes (xs ++ ys) =
      (p.process_bytes xs >>= fun r =>
        r.1.data_complete >>= fun dc =>
          if dc then Except.ok r
          else r.1.process_bytes ys >>= fun r2 => Except.ok (r2.1, r.2 + r2.2)) := by
  have hx1 : 1 ≤ xs.length := by
    cases xs with
    | nil => exact absurd rfl hxs
    | cons b t => simp
  have hy1 : 1 ≤ ys.length := by
    cases ys with
    | nil => exact absurd rfl hys
    | cons b t => simp
  rcases Nat.lt_trichotomy p.header.length 6 with hlt | h6 | hgt
  · -- header incomplete
    rw [process_bytes_hdr_fill p (xs ++ ys) hlt (by simp [hxs]),
      process_bytes_hdr_fill p xs hlt hxs]
    dsimp only
    by_cases hfill : 6 - p.header.length ≤ xs.length
    · -- the header completes within xs
      have hminxy : min (6 - p.header.length) (xs ++ ys).length =
          6 - p.header.length := by
        simp only [List.length_append]; omega
      have hminx : min (6 - p.header.length) xs.length = 6 - p.header.length := by
        omega
      rw [hminxy, hminx,
        List.take_append_of_le_length (by omega : 6 - p.header.length ≤ xs.length)]
      rw [if_pos (by omega : p.header.length + (6 - p.header.length) = 6),
        if_pos (by omega : p.header.length + (6 - p.header.length) = 6)]
      by_cases h8 : beU16 (p.header ++ xs.take (6 - p.header.length)) 4 + 1 ≤ 8192
      · rw [if_pos h8, if_pos h8]
        by_cases hn0 : beU16 (p.header ++ xs.take (6 - p.header.length)) 4 + 1 -
            p.data.length = 0
        · rw [if_pos hn0, if_pos hn0]; rfl
        · rw [if_neg hn0, if_neg hn0, bind_ok_elim]
          dsimp only
          have h6n : (p.header ++ xs.take (6 - p.header.length)).length = 6 := by
            simp only [List.length_append, List.length_take]; omega
          have hdc := data_complete_closed
            ⟨p.header ++ xs.take (6 - p.header.length),
              p.data ++ (xs.drop (6 - p.header.length)).take
                (min (beU16 (p.header ++ xs.take (6 - p.header.length)) 4 + 1 -
                  p.data.length) (xs.length - (6 - p.header.length))),
              p.vcid⟩
            h6n h8
            (by simp only [List.length_append, List.length_take, List.length_drop]; omega)
          rw [hdc, bind_ok_elim]
          by_cases hfit : beU16 (p.header ++ xs.take (6 - p.header.length)) 4 + 1 -
              p.data.length ≤ xs.length - (6 - p.header.length)
          · have hbeq : ((⟨p.header ++ xs.take (6 - p.header.length),
                p.data ++ (xs.drop (6 - p.header.length)).take
                  (min (beU16 (p.header ++ xs.take (6 - p.header.length)) 4 + 1 -
                    p.data.length) (xs.length - (6 - p.header.length))),
                p.vcid⟩ : TP_PDU).data.length ==
                beU16 (p.header ++ xs.take (6 - p.header.length)) 4 + 1) = true := by
              simp only [List.length_append, List.length_take, List.length_drop,
                beq_iff_eq]
              omega
            rw [hbeq]
            simp only [if_true]
            have hm2 : min (beU16 (p.header ++ xs.take (6 - p.header.length)) 4 + 1 -
                p.data.length) ((xs ++ ys).length - (6 - p.header.length)) =
                min (beU16 (p.header ++ xs.take (6 - p.header.length)) 4 + 1 -
                p.data.length) (xs.length - (6 - p.header.length)) := by
              simp only [List.length_append]; omega
            rw [hm2]
            have hdrop : (xs ++ ys).drop (6 - p.header.length) =
                xs.drop (6 - p.header.length) ++ ys :=
              List.drop_append_of_le_length (by omega)
            rw [hdrop]
            have htk : (xs.drop (6 - p.header.length) ++ ys).take
                (min (beU16 (p.header ++ xs.take (6 - p.header.length)) 4 + 1 -
                  p.data.length) (xs.length - (6 - p.header.length))) =
                (xs.drop (6 - p.header.length)).take
                  (min (beU16 (p.header ++ xs.take (6 - p.header.length)) 4 + 1 -
                    p.data.length) (xs.length - (6 - p.header.length))) := by
              apply List.take_append_of_le_length
              simp only [List.length_drop]
              omega
            rw [htk]
          · have hbeq : ((⟨p.header ++ xs.take (6 - p.header.length),
                p.data ++ (xs.drop (6 - p.header.length)).take
                  (min (beU16 (p.header ++ xs.take (6 - p.header.length)) 4 + 1 -
                    p.data.length) (xs.length - (6 - p.header.length))),
                p.vcid⟩ : TP_PDU).data.length ==
                beU16 (p.header ++ xs.take (6 - p.header.length)) 4 + 1) = false := by
              simp only [List.length_append, List.length_take, List.length_drop,
                beq_eq_false_iff_ne, ne_eq]
              omega
            rw [hbeq]
            simp only [Bool.false_eq_true, if_false]
            rw [process_bytes_hdr_done _ ys h6n]
            dsimp only
            rw [if_pos h8]
            have hmx : min (beU16 (p.header ++ xs.take (6 - p.header.length)) 4 + 1 -
                p.data.length) (xs.length - (6 - p.header.length)) =
                xs.length - (6 - p.header.length) := by omega
            rw [hmx]
            have htkall : (xs.drop (6 - p.header.length)).take
                (xs.length - (6 - p.header.length)) = xs.drop (6 - p.header.length) := by
              apply List.take_of_length_le
              simp
            rw [htkall]
            have hne2 : ¬ beU16 (p.header ++ xs.take (6 - p.header.length)) 4 + 1 -
                (p.data ++ xs.drop (6 - p.header.length)).length = 0 := by
              simp only [List.length_append, List.length_drop]
              omega
            rw [if_neg hne2, bind_ok_elim]
            dsimp only
            have harith : min (beU16 (p.header ++ xs.take (6 - p.header.length)) 4 + 1 -
                p.data.length) ((xs ++ ys).length - (6 - p.header.length)) =
                (xs.length - (6 - p.header.length)) +
                min (beU16 (p.header ++ xs.take (6 - p.header.length)) 4 + 1 -
                  (p.data ++ xs.drop (6 - p.header.length)).length) ys.length := by
              simp only [List.length_append, List.length_drop]
              omega
            rw [harith]
            have hdrop : (xs ++ ys).drop (6 - p.header.length) =
                xs.drop (6 - p.header.length) ++ ys :=
              List.drop_append_of_le_length (by omega)
            rw [hdrop]
            have htk2 : (xs.drop (6 - p.header.length) ++ ys).take
                ((xs.length - (6 - p.header.length)) +
                  min (beU16 (p.header ++ xs.take (6 - p.header.length)) 4 + 1 -
                    (p.data ++ xs.drop (6 - p.header.length)).length) ys.length) =
                xs.drop (6 - p.header.length) ++ ys.take
                  (min (beU16 (p.header ++ xs.take (6 - p.header.length)) 4 + 1 -
                    (p.data ++ xs.drop (6 - p.header.length)).length) ys.length) := by
              rw [show xs.length - (6 - p.header.length) =
                  (xs.drop (6 - p.header.length)).length by simp]
              exact List.take_append _
            rw [htk2, ← List.append_assoc]
            refine congrArg Except.ok (Prod.ext ?_ ?_)
            · rfl
            · simp only [List.length_append, List.length_drop, List.length_take]
              omega
      · rw [if_neg h8, if_neg h8]; rfl
    · -- the header does not complete within xs
      have hminx : min (6 - p.header.length) xs.length = xs.length := by omega
      rw [hminx, List.take_length]
      rw [if_neg (by omega : ¬ p.header.length + xs.length = 6), bind_ok_elim]
      dsimp only
      rw [data_complete_hdr_low ⟨p.header ++ xs, p.data, p.vcid⟩
        (by simp only [List.length_append]; omega), bind_ok_elim]
      simp only [Bool.false_eq_true, if_false]
      rw [process_bytes_hdr_fill ⟨p.header ++ xs, p.data, p.vcid⟩ ys
        (by simp only [List.length_append]; omega) hys]
      dsimp only
      have hminxy : min (6 - p.header.length) (xs ++ ys).length =
          xs.length + min (6 - (p.header ++ xs).length) ys.length := by
        simp only [List.length_append]; omega
      rw [hminxy]
      have htk3 : (xs ++ ys).take
          (xs.length + min (6 - (p.header ++ xs).length) ys.length) =
          xs ++ ys.take (min (6 - (p.header ++ xs).length) ys.length) := by
        exact List.take_append _
      rw [htk3, ← List.append_assoc]
      have hfcond : (p.header.length +
          (xs.length + min (6 - (p.header ++ xs).length) ys.length) = 6) ↔
          ((p.header ++ xs).length + min (6 - (p.header ++ xs).length) ys.length = 6) := by
        simp only [List.length_append]
        omega
      by_cases hfull2 : (p.header ++ xs).length +
          min (6 - (p.header ++ xs).length) ys.length = 6
      · rw [if_pos (hfcond.mpr hfull2), if_pos hfull2]
        by_cases h8b : beU16 (p.header ++ xs ++
            ys.take (min (6 - (p.header ++ xs).length) ys.length)) 4 + 1 ≤ 8192
        · rw [if_pos h8b, if_pos h8b]
          by_cases hn0b : beU16 (p.header ++ xs ++
              ys.take (min (6 - (p.header ++ xs).length) ys.length)) 4 + 1 -
              p.data.length = 0
          · rw [if_pos hn0b, if_pos hn0b]; rfl
          · rw [if_neg hn0b, if_neg hn0b, bind_ok_elim]
            dsimp only
            have hlq : (xs ++ ys).length -
                (xs.length + min (6 - (p.header ++ xs).length) ys.length) =
                ys.length - min (6 - (p.header ++ xs).length) ys.length := by
              simp only [List.length_append]; omega
            rw [hlq]
            have hdq : (xs ++ ys).drop
                (xs.length + min (6 - (p.header ++ xs).length) ys.length) =
                ys.drop (min (6 - (p.header ++ xs).length) ys.length) :=
              List.drop_append _
            rw [hdq]
            refine congrArg Except.ok (Prod.ext ?_ ?_)
            · rfl
            · simp only [List.length_append, List.length_drop, List.length_take]
              omega
        · rw [if_neg h8b, if_neg h8b]; rfl
      · rw [if_neg (fun hx => hfull2 (hfcond.mp hx)), if_neg hfull2]
        refine congrArg Except.ok (Prod.ext ?_ ?_)
        · rfl
        · simp only [List.length_append, List.length_drop, List.length_take]
  · -- header already complete
    rw [process_bytes_hdr_done p (xs ++ ys) h6, process_bytes_hdr_done p xs h6]
    by_cases h8 : beU16 p.header 4 + 1 ≤ 8192
    · rw [if_pos h8, if_pos h8]
      by_cases hn0 : beU16 p.header 4 + 1 - p.data.length = 0
      · rw [if_pos hn0, if_pos hn0]; rfl
      · rw [if_neg hn0, if_neg hn0, bind_ok_elim]
        dsimp only
        have hdc := data_complete_closed
          { p with data := p.data ++
              xs.take (min (beU16 p.header 4 + 1 - p.data.length) xs.length) }
          h6 h8
          (by simp only [List.length_append, List.length_take]; omega)
        rw [hdc, bind_ok_elim]
        by_cases hfit : beU16 p.header 4 + 1 - p.data.length ≤ xs.length
        · have hbeq : (({ p with data := p.data ++
                              xs.take (min (beU16 p.header 4 + 1 - p.data.length)
                                xs.length) } :
                TP_PDU).data.length == beU16 p.header 4 + 1) = true := by
            simp only [List.length_append, List.length_take, beq_iff_eq]
            omega
          rw [hbeq]
          simp only [if_true]
          have hmin : min (beU16 p.header 4 + 1 - p.data.length) (xs ++ ys).length =
              min (beU16 p.header 4 + 1 - p.data.length) xs.length := by
            simp only [List.length_append]; omega
          rw [hmin]
          rw [List.take_append_of_le_length (by omega :
            min (beU16 p.header 4 + 1 - p.data.length) xs.length ≤ xs.length)]
        · have hbeq : (({ p with data := p.data ++
                              xs.take (min (beU16 p.header 4 + 1 - p.data.length)
                                xs.length) } :
                TP_PDU).data.length == beU16 p.header 4 + 1) = false := by
            simp only [List.length_append, List.length_take, beq_eq_false_iff_ne, ne_eq]
            omega
          rw [hbeq]
          simp only [Bool.false_eq_true, if_false]
          rw [process_bytes_hdr_done
            { p with data := p.data ++
                xs.take (min (beU16 p.header 4 + 1 - p.data.length) xs.length) } ys h6]
          dsimp only
          rw [if_pos h8]
          have hmx : min (beU16 p.header 4 + 1 - p.data.length) xs.length =
              xs.length := by omega
          rw [hmx, List.take_length]
          have hne2 : ¬ beU16 p.header 4 + 1 - (p.data ++ xs).length = 0 := by
            simp only [List.length_append]; omega
          rw [if_neg hne2, bind_ok_elim]
          dsimp only
          have harith : min (beU16 p.header 4 + 1 - p.data.length) (xs ++ ys).length =
              xs.length + min (beU16 p.header 4 + 1 - (p.data ++ xs).length) ys.length := by
            simp only [List.length_append]; omega
          rw [harith]
          have htk2 : (xs ++ ys).take (xs.length +
              min (beU16 p.header 4 + 1 - (p.data ++ xs).length) ys.length) =
              xs ++ ys.take (min (beU16 p.header 4 + 1 - (p.data ++ xs).length)
                ys.length) :=
            List.take_append _
          rw [htk2, ← List.append_assoc]
    · rw [if_neg h8, if_neg h8]; rfl
  · rw [process_bytes_hdr_over p (xs ++ ys) hgt, process_bytes_hdr_over p xs hgt]
    rfl

/-- C8: feeding the assembler a byte sequence in one `process_bytes` call and
feeding the same bytes as consecutive non-empty chunks (stopping once the
unit completes) produce the identical assembler state and the same total
consumed count. -/
theorem spec_C8 : ∀ (chunks : List (List Nat)) (p : TP_PDU),
    chunks ≠ [] → (∀ c ∈ chunks, c ≠ []) →
    feed_chunks p chunks = p.process_bytes chunks.join := by
  intro chunks
  induction chunks with
  | nil => intro p h _; exact absurd rfl h
  | cons c cs ih =>
      intro p _ hall
      have hc : c ≠ [] := hall c (by simp)
      have hstep : feed_chunks p (c :: cs) = (do
          let r ← p.process_bytes c
          let dc ← r.1.data_complete
          if dc then Except.ok r
          else do
            let r2 ← feed_chunks r.1 cs
            Except.ok (r2.1, r.2 + r2.2)) := rfl
      cases cs with
      | nil =>
          have hjoin : List.join [c] = c := by simp
          rw [hjoin, hstep]
          cases hpb : p.process_bytes c with
          | error e => rfl
          | ok r =>
              rw [bind_ok_elim]
              obtain ⟨b, hdc⟩ := process_bytes_ok_dc p c r.1 r.2 (by rw [hpb])
              rw [hdc, bind_ok_elim]
              cases b with
              | true => simp
              | false =>
                  simp only [Bool.false_eq_true, if_false]
                  rw [show feed_chunks r.1 [] = Except.ok (r.1, 0) from rfl, bind_ok_elim]
                  simp
      | cons c2 cs2 =>
          have hc2 : c2 ≠ [] := hall c2 (by simp)
          have hrest : (c2 :: cs2).join ≠ [] := by
            simp only [List.join]
            intro hx
            exact hc2 (List.append_eq_nil.mp hx).1
          have hjoin : (c :: c2 :: cs2).join = c ++ (c2 :: cs2).join := by
            simp [List.join]
          rw [hjoin, process_bytes_append p c ((c2 :: cs2).join) hc hrest, hstep]
          cases hpb : p.process_bytes c with
          | error e => rfl
          | ok r =>
              rw [bind_ok_elim, bind_ok_elim]
              obtain ⟨b, hdc⟩ := process_bytes_ok_dc p c r.1 r.2 (by rw [hpb])
              rw [hdc, bind_ok_elim, bind_ok_elim]
              cases b with
              | true => simp
              | false =>
                  simp only [Bool.false_eq_true, if_false]
                  rw [ih r.1 (by simp) (fun d hd => hall d (List.mem_cons_of_mem c hd))]

/-- Witness for C8: a concrete 5-chunk split of a 10-byte unit (6-byte header
declaring 4 data bytes) produces the same result as one contiguous call. -/
theorem spec_C8_witness :
    wchunks_C8 ≠ [] ∧ (∀ c ∈ wchunks_C8, c ≠ []) ∧
    feed_chunks (TP_PDU.new 0) wchunks_C8 =
      (TP_PDU.new 0).process_bytes wchunks_C8.join :=
  ⟨by decide, by decide, spec_C8 wchunks_C8 (TP_PDU.new 0) (by decide) (by decide)⟩
